import Mathlib

/-!
Verification development for the UST metadata-generation engine
(`src/bin/lttng-sessiond/ust-metadata.cpp`).

The C code is shallowly embedded:

* `RegSession`/`metadata_reserve` model the growable append buffer at the
  byte level (a `List Nat` of bytes standing for the `char *` allocation,
  together with the write cursor `_metadata_len` and the allocation length
  `_metadata_alloc_len`).  `realloc` failure is modelled by the oracle flag
  `alloc_fails` (the C allocator may fail nondeterministically).
* `EmSession` and the monad `M` model the text-emission layer
  (`lttng_metadata_printf` and everything built on it).  Since every write
  to the buffer goes through `lttng_metadata_printf`, which appends the
  rendered string at the write cursor, the readable content of the buffer
  is abstracted as the `String` written so far; the cursor equals its
  length.  The reservation arithmetic (`reserve_grow`) is shared with the
  byte-level model.  The metadata file mirror is modelled in its
  `_metadata_fd < 0` (no mirror attached) configuration, in which
  `metadata_file_append` is a no-op returning 0.
* Error codes follow the C `-errno` returns: `Err.einval` (-EINVAL),
  `Err.enomem` (-ENOMEM), `Err.eoverflow` (-EOVERFLOW), `Err.enoent`
  (-ENOENT).
* Machine integers are `Nat`; all the quantities involved are unsigned in
  the C code and the code's own range checks keep every intermediate value
  far below any wrap-around point, except where a check is itself part of
  the model (`UINT32_MAX >>> 1`).
-/

/-- C error returns used by ust-metadata.cpp, as an error kind. -/
inductive Err where
  | einval
  | enomem
  | eoverflow
  | enoent
  deriving DecidableEq, Repr

def UINT32_MAX : Nat := 2 ^ 32 - 1

/-- Fuel-indexed helper for `lttng_fls`; the fuel is only a structural
termination device, `n` itself is always sufficient fuel. -/
def flsAux : Nat → Nat → Nat
  | 0, _ => 0
  | f + 1, n => if n = 0 then 0 else flsAux f (n / 2) + 1

/-- Modelled from the spec: `lttng_fls` (find last set, i.e. one plus the
index of the highest set bit, 0 for 0) is declared in a common header that
is not part of `src/`; the growth rule "next power-of-two ≥ new total" in
the spec pins down the standard fls semantics used here. -/
def lttng_fls (n : Nat) : Nat := flsAux n n

/-- `get_count_order` from ust-metadata.cpp: exponent of the least power of
two that is ≥ `count` (for `count ≥ 1`). -/
def get_count_order (count : Nat) : Nat :=
  let order := lttng_fls count - 1
  if count &&& (count - 1) ≠ 0 then order + 1 else order

/-- The pure reservation arithmetic of `metadata_reserve`: given the write
cursor, the current allocation length and the requested length, either an
error or the new allocation length. -/
def reserve_grow (metadata_len alloc_len len : Nat) : Except Err Nat :=
  let new_len := metadata_len + len
  if new_len > UINT32_MAX >>> 1 then .error .einval
  else if alloc_len * 2 > UINT32_MAX >>> 1 then .error .einval
  else if new_len > alloc_len then
    .ok (max (2 ^ get_count_order new_len) (alloc_len * 2))
  else .ok alloc_len

/-- The session registry fields touched by `metadata_reserve`
(`ust_registry_session`): the metadata byte buffer, the write cursor and
the allocation length, plus the allocator-failure oracle. -/
structure RegSession where
  metadata : List Nat
  metadata_len : Nat
  metadata_alloc_len : Nat
  alloc_fails : Bool
  deriving DecidableEq, Repr

/-- `metadata_reserve` from ust-metadata.cpp.  Returns the offset at which
`len` bytes may be written (the current write cursor) and the updated
session; on error the session is returned unchanged.  On growth the
buffer is reallocated (old contents kept) and the newly exposed bytes
`[old_alloc_len, new_alloc_len)` are zero-filled. -/
def metadata_reserve (s : RegSession) (len : Nat) : Except Err Nat × RegSession :=
  let new_len := s.metadata_len + len
  let old_alloc_len := s.metadata_alloc_len
  if new_len > UINT32_MAX >>> 1 then (.error .einval, s)
  else if old_alloc_len * 2 > UINT32_MAX >>> 1 then (.error .einval, s)
  else if new_len > old_alloc_len then
    if s.alloc_fails then (.error .enomem, s)
    else
      let new_alloc_len := max (2 ^ get_count_order new_len) (old_alloc_len * 2)
      (.ok s.metadata_len,
        { s with
          metadata := s.metadata.take old_alloc_len ++
            List.replicate (new_alloc_len - old_alloc_len) 0
          metadata_len := new_len
          metadata_alloc_len := new_alloc_len })
  else (.ok s.metadata_len, { s with metadata_len := new_len })

/-- The empty session: fresh registry with no buffer allocated. -/
def initRegSession : RegSession :=
  { metadata := [], metadata_len := 0, metadata_alloc_len := 0, alloc_fails := false }

/-- Run a sequence of reservations; `none` if any of them fails, otherwise
the list of returned offsets and the final session. -/
def runReserves (s : RegSession) : List Nat → Option (List Nat × RegSession)
  | [] => some ([], s)
  | len :: rest =>
    match metadata_reserve s len with
    | (.ok off, s') =>
      match runReserves s' rest with
      | some (offs, s'') => some (off :: offs, s'')
      | none => none
    | (.error _, _) => none

/-! ### Bounds for `lttng_fls` and `get_count_order` -/

theorem flsAux_zero : ∀ f, flsAux f 0 = 0 := by
  intro f
  cases f <;> simp [flsAux]

theorem flsAux_pos : ∀ f n, 1 ≤ n → 1 ≤ flsAux (f + 1) n := by
  intro f n h1
  have hne : n ≠ 0 := by omega
  simp only [flsAux, hne, if_false]
  omega

theorem flsAux_bounds : ∀ f n, 1 ≤ n → n ≤ f →
    2 ^ (flsAux f n - 1) ≤ n ∧ n < 2 ^ flsAux f n := by
  intro f
  induction f with
  | zero => intro n h1 h2; omega
  | succ f ih =>
    intro n h1 h2
    have hne : n ≠ 0 := by omega
    simp only [flsAux, hne, if_false]
    by_cases h2n : n / 2 = 0
    · have hn1 : n = 1 := by omega
      subst hn1
      norm_num [flsAux_zero]
    · have hrec := ih (n / 2) (by omega) (by omega)
      rcases hrec with ⟨hlo, hhi⟩
      have hfls1 : 1 ≤ flsAux f (n / 2) := by
        have hf : f = (f - 1) + 1 := by omega
        rw [hf]
        exact flsAux_pos (f - 1) (n / 2) (by omega)
      constructor
      · have heq : 2 ^ (flsAux f (n / 2) + 1 - 1) =
            2 ^ (flsAux f (n / 2) - 1) * 2 := by
          rw [Nat.add_sub_cancel, ← Nat.pow_succ]
          congr 1
          omega
        rw [heq]
        omega
      · have heq : 2 ^ (flsAux f (n / 2) + 1) =
            2 ^ flsAux f (n / 2) * 2 := by rw [Nat.pow_succ]
        rw [heq]
        omega

theorem lttng_fls_bounds {n : Nat} (h : 1 ≤ n) :
    2 ^ (lttng_fls n - 1) ≤ n ∧ n < 2 ^ lttng_fls n :=
  flsAux_bounds n n h (Nat.le_refl n)

theorem lttng_fls_pos {n : Nat} (h : 1 ≤ n) : 1 ≤ lttng_fls n := by
  have hn : n = (n - 1) + 1 := by omega
  unfold lttng_fls
  rw [hn]
  exact flsAux_pos (n - 1) ((n - 1) + 1) (by omega)

theorem pow2_land_pred (k : Nat) : (2 ^ k) &&& (2 ^ k - 1) = 0 := by
  apply Nat.eq_of_testBit_eq
  intro i
  rw [Nat.testBit_land, Nat.zero_testBit]
  rcases eq_or_ne k i with hk | hk
  · subst hk
    simp
  · rw [Nat.testBit_two_pow_of_ne hk]
    simp

theorem testBit_of_between {n k : Nat} (h1 : 2 ^ k ≤ n) (h2 : n < 2 ^ (k + 1)) :
    n.testBit k = true := by
  rw [Nat.testBit_to_div_mod]
  have hpos : 0 < 2 ^ k := Nat.pos_pow_of_pos k (by omega)
  have hdiv1 : 1 ≤ n / 2 ^ k := (Nat.le_div_iff_mul_le hpos).2 (by omega)
  have hdiv2 : n / 2 ^ k < 2 := by
    rw [Nat.div_lt_iff_lt_mul hpos]
    have : 2 ^ (k + 1) = 2 * 2 ^ k := by rw [Nat.pow_succ]; ring
    omega
  have : n / 2 ^ k = 1 := by omega
  simp [this]

theorem land_pred_zero_pow2 {n : Nat} (h : 1 ≤ n) (h0 : n &&& (n - 1) = 0) :
    n = 2 ^ (lttng_fls n - 1) := by
  rcases lttng_fls_bounds h with ⟨hlo, hhi⟩
  have hL : 1 ≤ lttng_fls n := lttng_fls_pos h
  have hhi' : n < 2 ^ (lttng_fls n - 1 + 1) := by
    have : lttng_fls n - 1 + 1 = lttng_fls n := by omega
    rw [this]
    exact hhi
  by_contra hne
  have h1 : 2 ^ (lttng_fls n - 1) + 1 ≤ n := by omega
  have hb1 : n.testBit (lttng_fls n - 1) = true := testBit_of_between hlo hhi'
  have hb2 : (n - 1).testBit (lttng_fls n - 1) = true := by
    apply testBit_of_between
    · omega
    · omega
  have : (n &&& (n - 1)).testBit (lttng_fls n - 1) = true := by
    rw [Nat.testBit_land, hb1, hb2]
    rfl
  rw [h0, Nat.zero_testBit] at this
  exact Bool.noConfusion this

/-- `2 ^ get_count_order n` is the least power of two that is ≥ `n`:
it is ≥ `n` and `< 2*n`. -/
theorem get_count_order_bounds {n : Nat} (h : 1 ≤ n) :
    n ≤ 2 ^ get_count_order n ∧ 2 ^ get_count_order n < 2 * n := by
  rcases lttng_fls_bounds h with ⟨hlo, hhi⟩
  have hL : 1 ≤ lttng_fls n := lttng_fls_pos h
  unfold get_count_order
  by_cases h0 : n &&& (n - 1) = 0
  · simp only [h0, ne_eq, not_true_eq_false, if_neg, not_false_eq_true, if_false]
    have heq := land_pred_zero_pow2 h h0
    constructor
    · omega
    · omega
  · simp only [ne_eq, h0, not_false_eq_true, if_true, if_pos]
    have hLe : lttng_fls n - 1 + 1 = lttng_fls n := by omega
    rw [hLe]
    constructor
    · omega
    · -- 2 ^ lttng_fls n = 2 * 2 ^ (lttng_fls n - 1) and 2 ^ (lttng_fls n - 1) < n
      have hne : n ≠ 2 ^ (lttng_fls n - 1) := by
        intro hEq
        apply h0
        rw [hEq]
        exact pow2_land_pred _
      have hsplit : 2 ^ lttng_fls n = 2 * 2 ^ (lttng_fls n - 1) := by
        conv_lhs => rw [← hLe]
        rw [Nat.pow_succ]
        ring
      omega

/-! ### Behaviour of `metadata_reserve` -/

theorem metadata_reserve_error_frame {s : RegSession} {len : Nat} {e : Err}
    {s' : RegSession} (h : metadata_reserve s len = (.error e, s')) : s' = s := by
  unfold metadata_reserve at h
  simp only [] at h
  split_ifs at h <;>
    first
      | (injection h with ha hb; exact hb.symm)
      | (injection h with ha hb; injection ha)

theorem metadata_reserve_ok_fields {s : RegSession} {len off : Nat} {s' : RegSession}
    (h : metadata_reserve s len = (.ok off, s')) :
    off = s.metadata_len ∧ s'.metadata_len = s.metadata_len + len ∧
    s'.alloc_fails = s.alloc_fails := by
  unfold metadata_reserve at h
  simp only [] at h
  split_ifs at h <;> injection h with ha hb <;>
    first
      | (injection ha; done)
      | (injection ha with ha'; subst hb; subst ha'; simp)

theorem metadata_reserve_alloc_mono {s : RegSession} {len : Nat}
    {r : Except Err Nat} {s' : RegSession} (h : metadata_reserve s len = (r, s')) :
    s.metadata_alloc_len ≤ s'.metadata_alloc_len := by
  unfold metadata_reserve at h
  simp only [] at h
  split_ifs at h <;> injection h with ha hb <;> subst hb <;> simp <;> omega

theorem metadata_reserve_growth {s : RegSession} {len off : Nat} {s' : RegSession}
    (h : metadata_reserve s len = (.ok off, s'))
    (hg : s.metadata_alloc_len < s.metadata_len + len) :
    s'.metadata_alloc_len =
      max (2 ^ get_count_order (s.metadata_len + len)) (2 * s.metadata_alloc_len) ∧
    s'.metadata = s.metadata.take s.metadata_alloc_len ++
      List.replicate (s'.metadata_alloc_len - s.metadata_alloc_len) 0 := by
  unfold metadata_reserve at h
  simp only [] at h
  split_ifs at h with h1 h2 h3 h4 <;> injection h with ha hb <;>
    first
      | (injection ha; done)
      | omega
      | (subst hb; exact ⟨by simp [Nat.mul_comm], by simp [Nat.mul_comm]⟩)

theorem runReserves_cons (s : RegSession) (len : Nat) (rest : List Nat) :
    runReserves s (len :: rest) =
      match metadata_reserve s len with
      | (.ok off, s') =>
        match runReserves s' rest with
        | some (offs, s'') => some (off :: offs, s'')
        | none => none
      | (.error _, _) => none := rfl

theorem runReserves_offsets :
    ∀ (lens : List Nat) (s : RegSession) (offs : List Nat) (s' : RegSession),
      runReserves s lens = some (offs, s') →
      ∀ i, (h : i < offs.length) →
        offs.get ⟨i, h⟩ = s.metadata_len + (lens.take i).sum := by
  intro lens
  induction lens with
  | nil =>
    intro s offs s' hrun i hi
    simp [runReserves] at hrun
    rcases hrun with ⟨h1, h2⟩
    subst h1
    simp at hi
  | cons len rest ih =>
    intro s offs s' hrun i hi
    rw [runReserves_cons] at hrun
    rcases hres : metadata_reserve s len with ⟨r, s1⟩
    rw [hres] at hrun
    match r, hrun with
    | .ok off, hrun =>
      simp only [] at hrun
      rcases hrest : runReserves s1 rest with _ | ⟨offs1, s2⟩
      · rw [hrest] at hrun; exact absurd hrun (by simp)
      · rw [hrest] at hrun
        simp at hrun
        rcases hrun with ⟨ho, hs⟩
        subst ho
        rcases metadata_reserve_ok_fields hres with ⟨hoff, hlen1, _⟩
        match i with
        | 0 => simpa using hoff
        | i + 1 =>
          simp only [List.get_cons_succ, List.take_succ_cons, List.sum_cons]
          have := ih s1 offs1 s2 hrest i (by simpa using hi)
          rw [this, hlen1]
          omega

/-! ### Claim C1 -/

/-- C1: for every sequence of successful `reserve(len)` calls on a session
buffer, each returned offset equals the sum of all previously reserved
lengths (the write cursor before the call); the allocation length never
shrinks; whenever a reservation requires growth, the new allocation length
equals `max(next power-of-two ≥ new total length, 2 × old allocation
length)` — witnessed by `2 ^ get_count_order new_total` being ≥ the new
total and < twice it, i.e. the least power of two ≥ it — and the newly
exposed bytes (from the old allocation length to the new one) are
zero-filled. -/
theorem C1_reserve_offsets_and_growth :
    (∀ (lens offs : List Nat) (s' : RegSession),
        runReserves initRegSession lens = some (offs, s') →
        ∀ i, (h : i < offs.length) → offs.get ⟨i, h⟩ = (lens.take i).sum)
    ∧ (∀ (s : RegSession) (len : Nat) (r : Except Err Nat) (s' : RegSession),
        metadata_reserve s len = (r, s') →
        s.metadata_alloc_len ≤ s'.metadata_alloc_len)
    ∧ (∀ (s : RegSession) (len off : Nat) (s' : RegSession),
        metadata_reserve s len = (.ok off, s') →
        s.metadata_alloc_len < s.metadata_len + len →
        (s'.metadata_alloc_len =
            max (2 ^ get_count_order (s.metadata_len + len)) (2 * s.metadata_alloc_len)
          ∧ s.metadata_len + len ≤ 2 ^ get_count_order (s.metadata_len + len)
          ∧ 2 ^ get_count_order (s.metadata_len + len) < 2 * (s.metadata_len + len)
          ∧ (s.metadata.length = s.metadata_alloc_len →
              ∀ j, s.metadata_alloc_len ≤ j → j < s'.metadata_alloc_len →
                s'.metadata[j]? = some 0))) := by
  refine ⟨?_, ?_, ?_⟩
  · intro lens offs s' hrun i hi
    simpa [initRegSession] using runReserves_offsets lens initRegSession offs s' hrun i hi
  · intro s len r s' h
    exact metadata_reserve_alloc_mono h
  · intro s len off s' h hg
    rcases metadata_reserve_growth h hg with ⟨halloc, hmeta⟩
    have hpos : 1 ≤ s.metadata_len + len := by omega
    rcases get_count_order_bounds hpos with ⟨hlo, hhi⟩
    refine ⟨halloc, hlo, hhi, ?_⟩
    intro hlen j hj1 hj2
    have htake : s.metadata.take s.metadata_alloc_len = s.metadata := by
      rw [← hlen]
      exact List.take_length s.metadata
    have htlen : (s.metadata.take s.metadata_alloc_len).length = s.metadata_alloc_len := by
      rw [htake, hlen]
    rw [hmeta, List.getElem?_append_right (by omega), htlen, List.getElem?_replicate]
    have : j - s.metadata_alloc_len < s'.metadata_alloc_len - s.metadata_alloc_len := by
      omega
    simp [this]

theorem C1_reserve_offsets_and_growth_witness :
    (([0, 1] : List Nat).get ⟨1, by decide⟩ = ([1, 2].take 1).sum)
    ∧ initRegSession.metadata_alloc_len ≤
        (⟨[0], 1, 1, false⟩ : RegSession).metadata_alloc_len
    ∧ (⟨[0], 1, 1, false⟩ : RegSession).metadata_alloc_len =
        max (2 ^ get_count_order (initRegSession.metadata_len + 1))
          (2 * initRegSession.metadata_alloc_len)
    ∧ (⟨[0], 1, 1, false⟩ : RegSession).metadata[0]? = some 0 := by
  have h3 := C1_reserve_offsets_and_growth.2.2 initRegSession 1 0
      ⟨[0], 1, 1, false⟩ (by rfl) (by decide)
  refine ⟨?_, ?_, h3.1, ?_⟩
  · exact C1_reserve_offsets_and_growth.1 [1, 2] [0, 1]
      ⟨[0, 0, 0, 0], 3, 4, false⟩ (by rfl) 1 (by decide)
  · exact C1_reserve_offsets_and_growth.2.1 initRegSession 1 (.ok 0)
      ⟨[0], 1, 1, false⟩ (by rfl)
  · exact h3.2.2.2 (by decide) 0 (by decide) (by decide)

/-! ### Claim C9 -/

/-- C9 (amended): `reserve(len)` fails with EINVAL (FormatLimitExceeded)
exactly when the resulting total size exceeds `2^31 - 1` **or** twice the
current allocation length exceeds `2^31 - 1`; when neither bound trips it
succeeds unless growth is required and the allocator fails (ENOMEM /
OutOfMemory); on any failure the session (write cursor, allocation length
and buffer) is unchanged. -/
theorem C9_reserve_failure_characterization :
    ∀ (s : RegSession) (len : Nat),
      ((metadata_reserve s len).1 = .error .einval ↔
        (UINT32_MAX >>> 1 < s.metadata_len + len ∨
         UINT32_MAX >>> 1 < s.metadata_alloc_len * 2))
      ∧ ((metadata_reserve s len).1 = .error .enomem ↔
          (s.metadata_len + len ≤ UINT32_MAX >>> 1 ∧
           s.metadata_alloc_len * 2 ≤ UINT32_MAX >>> 1 ∧
           s.metadata_alloc_len < s.metadata_len + len ∧
           s.alloc_fails = true))
      ∧ ((metadata_reserve s len).1 = .ok s.metadata_len ↔
          (s.metadata_len + len ≤ UINT32_MAX >>> 1 ∧
           s.metadata_alloc_len * 2 ≤ UINT32_MAX >>> 1 ∧
           (s.metadata_alloc_len < s.metadata_len + len → s.alloc_fails = false)))
      ∧ (∀ e s', metadata_reserve s len = (.error e, s') → s' = s) := by
  intro s len
  refine ⟨?_, ?_, ?_, fun e s' h => metadata_reserve_error_frame h⟩ <;>
    (unfold metadata_reserve
     simp only []
     split_ifs with h1 h2 h3 h4 <;> simp_all <;> omega)

/-- C9 counterexample: reserving `2^29 + 1` bytes from a fresh session
grows the allocation to `2^30`; the next `reserve(1)` then fails with
EINVAL because `2 * 2^30 = 2^31` exceeds `2^31 - 1`, although the
resulting total size `2^29 + 2` is far below `2^31 - 1` and the allocator
does not fail — refuting "fails with FormatLimitExceeded exactly when the
resulting total size would exceed `2^31 - 1`". -/
theorem C9_counterexample :
    (metadata_reserve (metadata_reserve initRegSession (2 ^ 29 + 1)).2 1).1 =
      .error .einval
    ∧ (metadata_reserve initRegSession (2 ^ 29 + 1)).2.metadata_len + 1 ≤
        UINT32_MAX >>> 1
    ∧ (metadata_reserve initRegSession (2 ^ 29 + 1)).2.alloc_fails = false
    ∧ (metadata_reserve initRegSession (2 ^ 29 + 1)).2.metadata_alloc_len = 2 ^ 30 := by
  refine ⟨?_, by decide, by rfl, by rfl⟩
  rfl

theorem C9_reserve_failure_characterization_witness :
    ((metadata_reserve (⟨[], 5, 2 ^ 30, false⟩ : RegSession) 1).1 = .error .einval ↔
      (UINT32_MAX >>> 1 < 5 + 1 ∨ UINT32_MAX >>> 1 < 2 ^ 30 * 2))
    ∧ (∀ e s', metadata_reserve (⟨[], 5, 2 ^ 30, false⟩ : RegSession) 1 = (.error e, s') →
        s' = (⟨[], 5, 2 ^ 30, false⟩ : RegSession)) := by
  have h := C9_reserve_failure_characterization ⟨[], 5, 2 ^ 30, false⟩ 1
  exact ⟨h.1, h.2.2.2⟩

/-! ### The text-emission layer -/

/-- `lttng_ust_ctl_encode_*` string encodings. -/
inductive Encoding where
  | none
  | utf8
  | ascii
  deriving DecidableEq, Repr

/-- `lttng_ust_ctl_integer_type`. -/
structure IntegerType where
  size : Nat
  alignment : Nat
  signedness : Nat
  encoding : Encoding
  base : Nat
  reverse_byte_order : Bool
  deriving DecidableEq, Repr

/-- `lttng_ust_ctl_float_type` (the fields the dump reads). -/
structure FloatType where
  exp_dig : Nat
  mant_dig : Nat
  alignment : Nat
  reverse_byte_order : Bool
  deriving DecidableEq, Repr

/-- `lttng_ust_ctl_basic_type`, as inspected by the legacy array/sequence
cases: either an integer payload or some other (unsupported) atype. -/
inductive BasicType where
  | integer (i : IntegerType)
  | other
  deriving DecidableEq, Repr

/-- A field's `lttng_ust_ctl_type`: the atype tag together with the union
payload read by `_lttng_field_statedump` for that tag.  `unknown` stands
for any atype value hitting the `default:` case. -/
inductive FieldType where
  | integer (i : IntegerType)
  | enum_legacy (name : String) (id : Nat) (container_type : IntegerType)
  | float (f : FloatType)
  | array_legacy (elem_type : BasicType) (length : Nat)
  | array_nestable (length : Nat) (alignment : Nat)
  | sequence_legacy (elem_type : BasicType) (length_type : IntegerType)
  | sequence_nestable (length_name : String) (alignment : Nat)
  | string (encoding : Encoding)
  | variant_legacy (nr_choices : Nat) (tag_name : String)
  | variant_nestable (nr_choices : Nat) (tag_name : String) (alignment : Nat)
  | struct_legacy (nr_fields : Nat)
  | struct_nestable (nr_fields : Nat) (alignment : Nat)
  | enum_nestable (name : String) (id : Nat)
  | unknown
  deriving DecidableEq, Repr

/-- `lttng_ust_ctl_field`: a name plus a type. -/
structure lttng_ust_ctl_field where
  name : String
  type : FieldType
  deriving DecidableEq, Repr

/-- One bound of a `lttng_ust_ctl_enum_entry` (`value` is the raw u64,
`signedness` selects `PRId64` vs `PRIu64` rendering). -/
structure EnumEntryValue where
  value : Nat
  signedness : Bool
  deriving DecidableEq, Repr

/-- `lttng_ust_ctl_enum_entry`; `is_auto` is the
`LTTNG_UST_CTL_UST_ENUM_ENTRY_OPTION_IS_AUTO` bit of `u.extra.options`. -/
structure EnumEntry where
  string : String
  start : EnumEntryValue
  end_ : EnumEntryValue
  is_auto : Bool
  deriving DecidableEq, Repr

/-- A registered enumeration (`ust_registry_enum`): name, id and its
ordered entry array. -/
structure EnumReg where
  name : String
  id : Nat
  entries : List EnumEntry
  deriving DecidableEq, Repr

/-- The session state seen by the emission layer: the text written so far
(`out`, whose length is the write cursor `_metadata_len`), the allocation
length, the session byte order and the enum registry. -/
structure EmSession where
  out : String
  alloc_len : Nat
  byte_order_big : Bool
  enums : List EnumReg
  deriving DecidableEq, Repr

/-- State-threading result monad: the C functions return an `int` error
code and mutate the session in place; on error the mutations made so far
are kept (no rollback). -/
def M (α : Type) : Type := EmSession → Except Err α × EmSession

def M.pure {α : Type} (a : α) : M α := fun s => (.ok a, s)

def M.bind {α β : Type} (x : M α) (f : α → M β) : M β := fun s =>
  match x s with
  | (.ok a, s') => f a s'
  | (.error e, s') => (.error e, s')

instance : Monad M where
  pure := M.pure
  bind := M.bind

theorem M_bind_apply {α β : Type} (x : M α) (f : α → M β) (s : EmSession) :
    (x >>= f) s =
      match x s with
      | (.ok a, s') => f a s'
      | (.error e, s') => (.error e, s') := rfl

theorem M_pure_apply {α : Type} (a : α) (s : EmSession) :
    (pure a : M α) s = (.ok a, s) := rfl

/-- `lttng_metadata_printf`: render the text (the callers below pass the
already-formatted string), reserve space for it and append it at the write
cursor.  `vasprintf`/`realloc` are assumed to succeed (the allocator
oracle only matters for the byte-level claims); the metadata-file mirror
is in its `_metadata_fd < 0` no-op configuration.  `String.length` is the
character count, which agrees with `strlen` on the ASCII text produced
here. -/
def lttng_metadata_printf (str : String) : M Unit := fun s =>
  match reserve_grow s.out.length s.alloc_len str.length with
  | .error e => (.error e, s)
  | .ok newAlloc => (.ok (), { s with out := s.out ++ str, alloc_len := newAlloc })

/-- `print_tabs`: one `lttng_metadata_printf` per tab, `nesting` times. -/
def print_tabs : Nat → M Unit
  | 0 => pure ()
  | n + 1 => do
    lttng_metadata_printf "\t"
    print_tabs n

/-- `sanitize_ctf_identifier`: map `.`, `$`, `:` to `_`, keep everything
else (the fixed `LTTNG_UST_ABI_SYM_NAME_LEN` buffer is abstracted to the
string's own length). -/
def sanitize_ctf_identifier (s : String) : String :=
  String.mk (s.data.map fun c => if c = '.' ∨ c = '$' ∨ c = ':' then '_' else c)

/-- The encoding ternary used by every integer/enum-container printf:
`none`, `UTF8`, otherwise `ASCII`. -/
def encoding_str (e : Encoding) : String :=
  match e with
  | .none => "none"
  | .utf8 => "UTF8"
  | .ascii => "ASCII"

/-- The common
`integer { size = %u; align = %u; signed = %u; encoding = %s; base = %u;%s }`
rendering; `bo` is the already-selected byte-order clause for this session
(empty for native order). -/
def integer_type_decl (it : IntegerType) (bo : String) : String :=
  "integer \x7b size = " ++ toString it.size ++
  "; align = " ++ toString it.alignment ++
  "; signed = " ++ toString it.signedness ++
  "; encoding = " ++ encoding_str it.encoding ++
  "; base = " ++ toString it.base ++ ";" ++
  (if it.reverse_byte_order then bo else "") ++ " \x7d"

/-- The byte-order clause opposite to the session's native order
(`bo_reverse` in `_lttng_field_statedump`). -/
def bo_reverse_str (s : EmSession) : String :=
  if s.byte_order_big then " byte_order = le;" else " byte_order = be;"

/-! ### String escaping -/

/-- `print_escaped_ctf_string` from ust-metadata.cpp, looping over the
characters (the terminating NUL is the list end): `\n` prints the two
characters `\` `n`; `\` and `"` print a backslash and fall through to
printing the character itself; everything else prints verbatim. -/
def print_escaped_ctf_string : List Char → M Unit
  | [] => pure ()
  | c :: rest => do
    (if c = '\n' then
      lttng_metadata_printf "\\n"
    else if c = '\\' ∨ c = '"' then do
      lttng_metadata_printf (String.mk ['\\'])
      lttng_metadata_printf (String.mk [c])
    else
      lttng_metadata_printf (String.mk [c]))
    print_escaped_ctf_string rest

/-- Pure rendering of one character under the free-form string escaper. -/
def escape_ctf_char (c : Char) : String :=
  if c = '\n' then "\\n"
  else if c = '\\' ∨ c = '"' then String.mk ['\\', c]
  else String.mk [c]

/-- Pure rendering of a whole string under the free-form string escaper. -/
def escape_ctf_string (str : String) : String :=
  (str.data.map escape_ctf_char).foldr (· ++ ·) ""

/-- The per-character enum-label escaping loop inside
`ust_metadata_enum_statedump`: only `"` and `\` are escaped. -/
def print_enum_label_chars : List Char → M Unit
  | [] => pure ()
  | c :: rest => do
    (if c = '"' then
      lttng_metadata_printf "\\\""
    else if c = '\\' then
      lttng_metadata_printf "\\\\"
    else
      lttng_metadata_printf (String.mk [c]))
    print_enum_label_chars rest

/-- Pure rendering of one character under the enum-label escaper. -/
def escape_enum_label_char (c : Char) : String :=
  if c = '"' then "\\\""
  else if c = '\\' then "\\\\"
  else String.mk [c]

/-- Pure rendering of a whole enum label. -/
def escape_enum_label (str : String) : String :=
  (str.data.map escape_enum_label_char).foldr (· ++ ·) ""

/-! ### Enum dump -/

/-- `PRId64`/`PRIu64` rendering of one enum bound: the raw u64 is printed
as a two's-complement signed 64-bit value when `signedness` is set. -/
def i64_of_u64 (v : Nat) : Int :=
  if v < 2 ^ 63 then (v : Int) else (v : Int) - 2 ^ 64

def enum_value_str (b : EnumEntryValue) : String :=
  if b.signedness then toString (i64_of_u64 b.value) else toString b.value

/-- The per-entry body of the `ust_metadata_enum_statedump` loop, at the
already-incremented nesting. -/
def print_enum_entry (nesting : Nat) (e : EnumEntry) : M Unit := do
  print_tabs nesting
  lttng_metadata_printf "\""
  print_enum_label_chars e.string.data
  lttng_metadata_printf "\""
  if e.is_auto then
    lttng_metadata_printf ",\n"
  else do
    lttng_metadata_printf " = "
    lttng_metadata_printf (enum_value_str e.start)
    if e.start.signedness = e.end_.signedness ∧ e.start.value = e.end_.value then
      lttng_metadata_printf ",\n"
    else
      lttng_metadata_printf (" ... " ++ enum_value_str e.end_ ++ ",\n")

def print_enum_entries (nesting : Nat) : List EnumEntry → M Unit
  | [] => pure ()
  | e :: rest => do
    print_enum_entry nesting e
    print_enum_entries nesting rest

/-- Modelled from the spec: `ust_registry_lookup_enum_by_id` lives outside
`src/`; per the spec the enumeration is resolved by (name, id). -/
def lookup_enum (s : EmSession) (ename : String) (eid : Nat) : Option EnumReg :=
  s.enums.find? (fun r => r.name == ename && r.id == eid)

/-- `ust_metadata_enum_statedump` from ust-metadata.cpp, minus the
unconditional `(*iter_field)++` at its `end:` label, which is accounted
for by the caller `_lttng_field_statedump` (it advances the cursor by one
for the legacy form and two for the nestable form, on every path through
this function, success or error). -/
def ust_metadata_enum_statedump (ename : String) (eid : Nat) (ct : IntegerType)
    (field_name : String) (nesting : Nat) : M Unit := fun s =>
  match lookup_enum s ename eid with
  | Option.none => (.error .enoent, s)
  | Option.some reg =>
    (do
      print_tabs nesting
      lttng_metadata_printf ("enum : integer \x7b size = " ++ toString ct.size ++
        "; align = " ++ toString ct.alignment ++
        "; signed = " ++ toString ct.signedness ++
        "; encoding = " ++ encoding_str ct.encoding ++
        "; base = " ++ toString ct.base ++ "; \x7d \x7b\n")
      print_enum_entries (nesting + 1) reg.entries
      print_tabs nesting
      lttng_metadata_printf ("\x7d _" ++ sanitize_ctf_identifier field_name ++ ";\n")) s
/-! ### Output extension

Every emission primitive only appends to `out`; the walker results carry
this fact so that no-rollback properties follow compositionally. -/

/-- `s'` extends `s`: the output of `s'` is the output of `s` with some
suffix appended (nothing already written is ever modified or removed). -/
def EmExtends (s s' : EmSession) : Prop := ∃ t, s'.out = s.out ++ t

theorem emext_refl (s : EmSession) : EmExtends s s := ⟨"", by simp⟩

theorem emext_trans {s1 s2 s3 : EmSession} (h1 : EmExtends s1 s2)
    (h2 : EmExtends s2 s3) : EmExtends s1 s3 := by
  rcases h1 with ⟨t1, h1⟩
  rcases h2 with ⟨t2, h2⟩
  exact ⟨t1 ++ t2, by rw [h2, h1, String.append_assoc]⟩

/-- All runs of `m` only append to the output. -/
def MExtends {α : Type} (m : M α) : Prop := ∀ s, EmExtends s (m s).2

theorem MExtends_run {α : Type} {m : M α} {s : EmSession} {r : Except Err α}
    {s' : EmSession} (hm : MExtends m) (h : m s = (r, s')) : EmExtends s s' := by
  have := hm s
  rw [h] at this
  exact this

theorem MExtends_pure {α : Type} (a : α) : MExtends (pure a : M α) :=
  fun s => emext_refl s

theorem MExtends_printf (str : String) : MExtends (lttng_metadata_printf str) := by
  intro s
  unfold lttng_metadata_printf
  match reserve_grow s.out.length s.alloc_len str.length with
  | .error e => exact emext_refl s
  | .ok newAlloc => exact ⟨str, rfl⟩

theorem MExtends_bind {α β : Type} {x : M α} {f : α → M β}
    (hx : MExtends x) (hf : ∀ a, MExtends (f a)) : MExtends (x >>= f) := by
  intro s
  rw [M_bind_apply]
  match hx1 : x s with
  | (.ok a, s1) =>
    exact emext_trans (MExtends_run hx hx1) (hf a s1)
  | (.error e, s1) =>
    exact MExtends_run hx hx1

theorem MExtends_ite {α : Type} {c : Prop} [Decidable c] {a b : M α}
    (ha : MExtends a) (hb : MExtends b) : MExtends (if c then a else b) := by
  split
  · exact ha
  · exact hb

theorem MExtends_print_tabs : ∀ n, MExtends (print_tabs n) := by
  intro n
  induction n with
  | zero => exact MExtends_pure ()
  | succ n ih => exact MExtends_bind (MExtends_printf "\t") fun _ => ih

theorem MExtends_print_enum_label_chars :
    ∀ cs, MExtends (print_enum_label_chars cs) := by
  intro cs
  induction cs with
  | nil => exact MExtends_pure ()
  | cons c rest ih =>
    unfold print_enum_label_chars
    apply MExtends_bind _ fun _ => ih
    apply MExtends_ite (MExtends_printf _)
    apply MExtends_ite (MExtends_printf _) (MExtends_printf _)

theorem MExtends_print_escaped_ctf_string :
    ∀ cs, MExtends (print_escaped_ctf_string cs) := by
  intro cs
  induction cs with
  | nil => exact MExtends_pure ()
  | cons c rest ih =>
    unfold print_escaped_ctf_string
    apply MExtends_bind _ fun _ => ih
    apply MExtends_ite (MExtends_printf _)
    apply MExtends_ite
      (MExtends_bind (MExtends_printf _) fun _ => MExtends_printf _)
      (MExtends_printf _)

theorem MExtends_print_enum_entry (nesting : Nat) (e : EnumEntry) :
    MExtends (print_enum_entry nesting e) := by
  unfold print_enum_entry
  apply MExtends_bind (MExtends_print_tabs nesting)
  intro _
  apply MExtends_bind (MExtends_printf _)
  intro _
  apply MExtends_bind (MExtends_print_enum_label_chars _)
  intro _
  apply MExtends_bind (MExtends_printf _)
  intro _
  apply MExtends_ite (MExtends_printf _)
  apply MExtends_bind (MExtends_printf _)
  intro _
  apply MExtends_bind (MExtends_printf _)
  intro _
  exact MExtends_ite (MExtends_printf _) (MExtends_printf _)

theorem MExtends_print_enum_entries (nesting : Nat) :
    ∀ es, MExtends (print_enum_entries nesting es) := by
  intro es
  induction es with
  | nil => exact MExtends_pure ()
  | cons e rest ih =>
    exact MExtends_bind (MExtends_print_enum_entry nesting e) fun _ => ih

theorem MExtends_ust_metadata_enum_statedump (ename : String) (eid : Nat)
    (ct : IntegerType) (field_name : String) (nesting : Nat) :
    MExtends (ust_metadata_enum_statedump ename eid ct field_name nesting) := by
  intro s
  unfold ust_metadata_enum_statedump
  match lookup_enum s ename eid with
  | Option.none => exact emext_refl s
  | Option.some reg =>
    refine MExtends_bind (MExtends_print_tabs nesting) (fun _ => ?_) s
    apply MExtends_bind (MExtends_printf _)
    intro _
    apply MExtends_bind (MExtends_print_enum_entries _ reg.entries)
    intro _
    exact MExtends_bind (MExtends_print_tabs nesting) fun _ => MExtends_printf _

/-! ### The type-tree walker -/

/-- Result of one `_lttng_field_statedump` call: the C return code, the
session, the final `*iter_field`, the fact that a successful call
advanced the cursor (every successful branch consumes at least one
descriptor slot), and the fact that the output was only appended to. -/
structure FRes (sin : EmSession) (iter : Nat) where
  res : Except Err Unit
  sess : EmSession
  it : Nat
  adv : res = .ok () → iter < it
  ext : EmExtends sin sess

/-- Result of `_lttng_variant_statedump` and of its choice loop, relative
to a base cursor value that a successful run never goes below. -/
structure VRes (sin : EmSession) (base : Nat) where
  res : Except Err Unit
  sess : EmSession
  it : Nat
  adv : res = .ok () → base ≤ it
  ext : EmExtends sin sess

/-- `floating_point { exp_dig = %u; mant_dig = %u; align = %u;%s }`. -/
def float_type_decl (ft : FloatType) (bo : String) : String :=
  "floating_point \x7b exp_dig = " ++ toString ft.exp_dig ++
  "; mant_dig = " ++ toString ft.mant_dig ++
  "; align = " ++ toString ft.alignment ++ ";" ++
  (if ft.reverse_byte_order then bo else "") ++ " \x7d"

mutual

/-- `_lttng_field_statedump` from ust-metadata.cpp: dispatch on the atype
of the field at the cursor.  Which steps are error-checked (`goto end`
before the cursor advance) and which are not mirrors the C exactly; in
particular the final printf of most branches is unchecked and the branch
advances the cursor and returns that printf's code. -/
def _lttng_field_statedump (fields : List lttng_ust_ctl_field)
    (iter nesting : Nat) (s : EmSession) : FRes s iter :=
  if hlen : iter < fields.length then
    let field := fields.get ⟨iter, hlen⟩
    let bo := bo_reverse_str s
    match field.type with
    | .integer it =>
      match hpt : print_tabs nesting s with
      | (.error e, s1) =>
        ⟨.error e, s1, iter, nofun, MExtends_run (MExtends_print_tabs nesting) hpt⟩
      | (.ok _, s1) =>
        let r := lttng_metadata_printf
          (integer_type_decl it bo ++ " _" ++ field.name ++ ";\n") s1
        ⟨r.1, r.2, iter + 1, fun _ => Nat.lt_succ_self iter,
          emext_trans (MExtends_run (MExtends_print_tabs nesting) hpt)
            (MExtends_printf _ s1)⟩
    | .enum_legacy ename eid ct =>
      let r := ust_metadata_enum_statedump ename eid ct field.name nesting s
      ⟨r.1, r.2, iter + 1, fun _ => Nat.lt_succ_self iter,
        MExtends_ust_metadata_enum_statedump ename eid ct field.name nesting s⟩
    | .float ft =>
      match hpt : print_tabs nesting s with
      | (.error e, s1) =>
        ⟨.error e, s1, iter, nofun, MExtends_run (MExtends_print_tabs nesting) hpt⟩
      | (.ok _, s1) =>
        let r := lttng_metadata_printf
          (float_type_decl ft bo ++ " _" ++ field.name ++ ";\n") s1
        ⟨r.1, r.2, iter + 1, fun _ => Nat.lt_succ_self iter,
          emext_trans (MExtends_run (MExtends_print_tabs nesting) hpt)
            (MExtends_printf _ s1)⟩
    | .array_legacy elemt alen =>
      match hpt : print_tabs nesting s with
      | (.error e, s1) =>
        ⟨.error e, s1, iter, nofun, MExtends_run (MExtends_print_tabs nesting) hpt⟩
      | (.ok _, s1) =>
        match elemt with
        | .integer eit =>
          let r := lttng_metadata_printf
            (integer_type_decl eit bo ++ " _" ++ field.name ++
              "[" ++ toString alen ++ "];\n") s1
          ⟨r.1, r.2, iter + 1, fun _ => Nat.lt_succ_self iter,
            emext_trans (MExtends_run (MExtends_print_tabs nesting) hpt)
              (MExtends_printf _ s1)⟩
        | .other =>
          ⟨.error .einval, s1, iter, nofun,
            MExtends_run (MExtends_print_tabs nesting) hpt⟩
    | .array_nestable alen aalign =>
      if hnext : iter + 1 < fields.length then
        let elemf := fields.get ⟨iter + 1, hnext⟩
        match elemf.type with
        | .integer eit =>
          let pre : M Unit := do
            (if aalign ≠ 0 then do
              print_tabs nesting
              lttng_metadata_printf ("struct \x7b \x7d align(" ++
                toString (aalign * 8) ++ ") _" ++ field.name ++ "_padding;\n")
            else pure ())
            print_tabs nesting
          have hpre : MExtends pre :=
            MExtends_bind
              (MExtends_ite
                (MExtends_bind (MExtends_print_tabs nesting)
                  fun _ => MExtends_printf _)
                (MExtends_pure ()))
              fun _ => MExtends_print_tabs nesting
          match hprer : pre s with
          | (.error e, s1) => ⟨.error e, s1, iter + 1, nofun, MExtends_run hpre hprer⟩
          | (.ok _, s1) =>
            let r := lttng_metadata_printf
              (integer_type_decl eit bo ++ " _" ++ field.name ++
                "[" ++ toString alen ++ "];\n") s1
            ⟨r.1, r.2, iter + 2, fun _ => by omega,
              emext_trans (MExtends_run hpre hprer) (MExtends_printf _ s1)⟩
        | _ => ⟨.error .einval, s, iter + 1, nofun, emext_refl s⟩
      else ⟨.error .eoverflow, s, iter + 1, nofun, emext_refl s⟩
    | .sequence_legacy elemt lent =>
      match hpt : print_tabs nesting s with
      | (.error e, s1) =>
        ⟨.error e, s1, iter, nofun, MExtends_run (MExtends_print_tabs nesting) hpt⟩
      | (.ok _, s1) =>
        match elemt with
        | .integer eit =>
          let pre : M Unit := do
            lttng_metadata_printf (integer_type_decl lent bo ++ " __" ++
              field.name ++ "_length;\n")
            print_tabs nesting
          have hpre : MExtends pre :=
            MExtends_bind (MExtends_printf _) fun _ => MExtends_print_tabs nesting
          match hprer : pre s1 with
          | (.error e, s2) =>
            ⟨.error e, s2, iter, nofun,
              emext_trans (MExtends_run (MExtends_print_tabs nesting) hpt)
                (MExtends_run hpre hprer)⟩
          | (.ok _, s2) =>
            let r := lttng_metadata_printf
              (integer_type_decl eit bo ++ " _" ++ field.name ++
                "[ __" ++ field.name ++ "_length ];\n") s2
            ⟨r.1, r.2, iter + 1, fun _ => Nat.lt_succ_self iter,
              emext_trans (MExtends_run (MExtends_print_tabs nesting) hpt)
                (emext_trans (MExtends_run hpre hprer) (MExtends_printf _ s2))⟩
        | .other =>
          ⟨.error .einval, s1, iter, nofun,
            MExtends_run (MExtends_print_tabs nesting) hpt⟩
    | .sequence_nestable lname salign =>
      if hnext : iter + 1 < fields.length then
        let elemf := fields.get ⟨iter + 1, hnext⟩
        match elemf.type with
        | .integer eit =>
          let pre : M Unit := do
            (if salign ≠ 0 then do
              print_tabs nesting
              lttng_metadata_printf ("struct \x7b \x7d align(" ++
                toString (salign * 8) ++ ") _" ++ field.name ++ "_padding;\n")
            else pure ())
            print_tabs nesting
          have hpre : MExtends pre :=
            MExtends_bind
              (MExtends_ite
                (MExtends_bind (MExtends_print_tabs nesting)
                  fun _ => MExtends_printf _)
                (MExtends_pure ()))
              fun _ => MExtends_print_tabs nesting
          match hprer : pre s with
          | (.error e, s1) => ⟨.error e, s1, iter + 1, nofun, MExtends_run hpre hprer⟩
          | (.ok _, s1) =>
            let r := lttng_metadata_printf
              (integer_type_decl eit bo ++ " _" ++ field.name ++
                "[ _" ++ lname ++ " ];\n") s1
            ⟨r.1, r.2, iter + 2, fun _ => by omega,
              emext_trans (MExtends_run hpre hprer) (MExtends_printf _ s1)⟩
        | _ => ⟨.error .einval, s, iter + 1, nofun, emext_refl s⟩
      else ⟨.error .eoverflow, s, iter + 1, nofun, emext_refl s⟩
    | .string enc =>
      match hpt : print_tabs nesting s with
      | (.error e, s1) =>
        ⟨.error e, s1, iter, nofun, MExtends_run (MExtends_print_tabs nesting) hpt⟩
      | (.ok _, s1) =>
        let r := lttng_metadata_printf ("string" ++
          (if enc = .ascii then " \x7b encoding = ASCII; \x7d" else "") ++
          " _" ++ field.name ++ ";\n") s1
        ⟨r.1, r.2, iter + 1, fun _ => Nat.lt_succ_self iter,
          emext_trans (MExtends_run (MExtends_print_tabs nesting) hpt)
            (MExtends_printf _ s1)⟩
    | .variant_legacy nrc tag =>
      let vr := _lttng_variant_statedump fields field.name nrc tag 0 iter nesting s hlen
      ⟨vr.res, vr.sess, vr.it,
        fun h => Nat.lt_of_lt_of_le (Nat.lt_succ_self iter) (vr.adv h), vr.ext⟩
    | .variant_nestable nrc tag valign =>
      let vr := _lttng_variant_statedump fields field.name nrc tag valign iter nesting s hlen
      ⟨vr.res, vr.sess, vr.it,
        fun h => Nat.lt_of_lt_of_le (Nat.lt_succ_self iter) (vr.adv h), vr.ext⟩
    | .struct_legacy nrf =>
      if nrf ≠ 0 then ⟨.error .einval, s, iter, nofun, emext_refl s⟩
      else
        match hpt : print_tabs nesting s with
        | (.error e, s1) =>
          ⟨.error e, s1, iter, nofun, MExtends_run (MExtends_print_tabs nesting) hpt⟩
        | (.ok _, s1) =>
          let r := lttng_metadata_printf ("struct \x7b\x7d _" ++ field.name ++ ";\n") s1
          ⟨r.1, r.2, iter + 1, fun _ => Nat.lt_succ_self iter,
            emext_trans (MExtends_run (MExtends_print_tabs nesting) hpt)
              (MExtends_printf _ s1)⟩
    | .struct_nestable nrf nalign =>
      if nrf ≠ 0 then ⟨.error .einval, s, iter, nofun, emext_refl s⟩
      else
        match hpt : print_tabs nesting s with
        | (.error e, s1) =>
          ⟨.error e, s1, iter, nofun, MExtends_run (MExtends_print_tabs nesting) hpt⟩
        | (.ok _, s1) =>
          if nalign ≠ 0 then
            match hal : lttng_metadata_printf ("struct \x7b\x7d align(" ++
                toString (nalign * 8) ++ ") _" ++ field.name ++ ";\n") s1 with
            | (.error e, s2) =>
              ⟨.error e, s2, iter, nofun,
                emext_trans (MExtends_run (MExtends_print_tabs nesting) hpt)
                  (MExtends_run (MExtends_printf _) hal)⟩
            | (.ok _, s2) =>
              ⟨.ok (), s2, iter + 1, fun _ => Nat.lt_succ_self iter,
                emext_trans (MExtends_run (MExtends_print_tabs nesting) hpt)
                  (MExtends_run (MExtends_printf _) hal)⟩
          else
            let r := lttng_metadata_printf ("struct \x7b\x7d _" ++ field.name ++ ";\n") s1
            ⟨r.1, r.2, iter + 1, fun _ => Nat.lt_succ_self iter,
              emext_trans (MExtends_run (MExtends_print_tabs nesting) hpt)
                (MExtends_printf _ s1)⟩
    | .enum_nestable ename eid =>
      if hnext : iter + 1 < fields.length then
        let containerf := fields.get ⟨iter + 1, hnext⟩
        match containerf.type with
        | .integer cit =>
          let r := ust_metadata_enum_statedump ename eid cit field.name nesting s
          ⟨r.1, r.2, iter + 2, fun _ => by omega,
            MExtends_ust_metadata_enum_statedump ename eid cit field.name nesting s⟩
        | _ => ⟨.error .einval, s, iter + 1, nofun, emext_refl s⟩
      else ⟨.error .eoverflow, s, iter + 1, nofun, emext_refl s⟩
    | .unknown => ⟨.error .einval, s, iter, nofun, emext_refl s⟩
  else ⟨.error .eoverflow, s, iter, nofun, emext_refl s⟩
termination_by (fields.length - iter, 2)

/-- `_lttng_variant_statedump` from ust-metadata.cpp: the variant's own
slot is consumed once (cursor `iter + 1`) before any choice is walked;
the optional padding uses the raw variant field name, the open tag and
the closing name are sanitized. -/
def _lttng_variant_statedump (fields : List lttng_ust_ctl_field)
    (variant_field_name : String) (nr_choices : Nat) (tag_name : String)
    (alignment : Nat) (iter nesting : Nat) (s : EmSession)
    (h : iter < fields.length) : VRes s (iter + 1) :=
  let step1 : M Unit :=
    if alignment ≠ 0 then do
      print_tabs nesting
      lttng_metadata_printf ("struct \x7b \x7d align(" ++
        toString (alignment * 8) ++ ") _" ++ variant_field_name ++ "_padding;\n")
    else pure ()
  have hstep1 : MExtends step1 :=
    MExtends_ite
      (MExtends_bind (MExtends_print_tabs nesting) fun _ => MExtends_printf _)
      (MExtends_pure ())
  have hhdr : MExtends (do
      print_tabs nesting
      lttng_metadata_printf ("variant <_" ++ sanitize_ctf_identifier tag_name ++
        "> \x7b\n")) :=
    MExtends_bind (MExtends_print_tabs nesting) fun _ => MExtends_printf _
  match hr1 : step1 s with
  | (.error e, s1) => ⟨.error e, s1, iter + 1, nofun, MExtends_run hstep1 hr1⟩
  | (.ok _, s1) =>
    match hr2 : (do
        print_tabs nesting
        lttng_metadata_printf ("variant <_" ++ sanitize_ctf_identifier tag_name ++
          "> \x7b\n")) s1 with
    | (.error e, s2) =>
      ⟨.error e, s2, iter + 1, nofun,
        emext_trans (MExtends_run hstep1 hr1) (MExtends_run hhdr hr2)⟩
    | (.ok _, s2) =>
      let vr := _lttng_variant_choices fields nr_choices (iter + 1) nesting s2
      have hext2 : EmExtends s vr.sess :=
        emext_trans (MExtends_run hstep1 hr1)
          (emext_trans (MExtends_run hhdr hr2) vr.ext)
      match hres : vr.res with
      | .error e => ⟨.error e, vr.sess, vr.it, nofun, hext2⟩
      | .ok _ =>
        have hclose : MExtends (do
            print_tabs nesting
            lttng_metadata_printf ("\x7d _" ++
              sanitize_ctf_identifier variant_field_name ++ ";\n")) :=
          MExtends_bind (MExtends_print_tabs nesting) fun _ => MExtends_printf _
        match hr3 : (do
            print_tabs nesting
            lttng_metadata_printf ("\x7d _" ++
              sanitize_ctf_identifier variant_field_name ++ ";\n")) vr.sess with
        | (r3, s3) =>
          ⟨r3, s3, vr.it, fun _ => vr.adv hres,
            emext_trans hext2 (MExtends_run hclose hr3)⟩
termination_by (fields.length - iter, 1)

/-- The `for (i = 0; i < nr_choices; i++)` loop of
`_lttng_variant_statedump`: before each choice the cursor is checked
against the list length (EOVERFLOW), then the walker runs on the choice
at nesting + 1; the first error stops the loop. -/
def _lttng_variant_choices (fields : List lttng_ust_ctl_field) :
    (n : Nat) → (iter : Nat) → (nesting : Nat) → (s : EmSession) → VRes s iter
  | 0, iter, _, s => ⟨.ok (), s, iter, fun _ => Nat.le_refl iter, emext_refl s⟩
  | n + 1, iter, nesting, s =>
    if hle : iter < fields.length then
      match _lttng_field_statedump fields iter (nesting + 1) s with
      | ⟨.error e, sess, it, _, hext⟩ => ⟨.error e, sess, it, nofun, hext⟩
      | ⟨.ok _, sess, it, adv, hext⟩ =>
        have hlt : iter < it := adv rfl
        let vr := _lttng_variant_choices fields n it nesting sess
        ⟨vr.res, vr.sess, vr.it,
          fun hok => Nat.le_of_lt (Nat.lt_of_lt_of_le hlt (vr.adv hok)),
          emext_trans hext vr.ext⟩
    else ⟨.error .eoverflow, s, iter, nofun, emext_refl s⟩
termination_by n iter _ _ => (fields.length - iter, n + 3)

end
/-! ### Field-list walks -/

/-- The `for (;;)` cursor loop shared by `_lttng_fields_metadata_statedump`
and `_lttng_context_metadata_statedump`: walk the descriptor list at
nesting 2 from cursor `i`, stopping at the first error. -/
def fields_statedump_loop (fields : List lttng_ust_ctl_field) (i : Nat)
    (s : EmSession) : Except Err Unit × EmSession :=
  if h : i < fields.length then
    match _lttng_field_statedump fields i 2 s with
    | ⟨.ok _, sess, it, adv, _⟩ =>
      have : fields.length - it < fields.length - i := by
        have := adv rfl
        omega
      fields_statedump_loop fields it sess
    | ⟨.error e, sess, _, _, _⟩ => (.error e, sess)
  else (.ok (), s)
termination_by fields.length - i

/-- `_lttng_fields_metadata_statedump`: walk an event's field list. -/
def _lttng_fields_metadata_statedump
    (event_fields : List lttng_ust_ctl_field) : M Unit :=
  fun s => fields_statedump_loop event_fields 0 s

/-- `_lttng_context_metadata_statedump`: `NULL` context is a success
no-op, otherwise walk the context field list. -/
def _lttng_context_metadata_statedump
    (ctx_fields : Option (List lttng_ust_ctl_field)) : M Unit :=
  fun s =>
    match ctx_fields with
    | Option.none => (.ok (), s)
    | Option.some ctx => fields_statedump_loop ctx 0 s

/-! ### Events and channels -/

/-- `chan->header_type`: 0 (unset), COMPACT or LARGE. -/
inductive HeaderType where
  | unset
  | compact
  | large
  deriving DecidableEq, Repr

/-- `ust_registry_event` (the fields this dump reads/writes). -/
structure ust_registry_event where
  name : String
  id : Nat
  loglevel_value : Int
  model_emf_uri : Option String
  fields : List lttng_ust_ctl_field
  metadata_dumped : Bool
  deriving DecidableEq, Repr

/-- `ust_registry_channel` (the fields this dump reads/writes); `events`
holds the contents of the channel's event hash table in table-iteration
order. -/
structure ust_registry_channel where
  chan_id : Nat
  header_type : HeaderType
  ctx_fields : Option (List lttng_ust_ctl_field)
  metadata_dumped : Bool
  events : List ust_registry_event
  deriving DecidableEq, Repr

/-- `ust_metadata_event_statedump` from ust-metadata.cpp.  The metadata
channel sentinel (`chan_id == -1U`, i.e. `UINT32_MAX`) and the
not-ready/already-dumped gate both return success without emitting;
otherwise the event block is emitted and `metadata_dumped` is set only
after every step succeeded. -/
def ust_metadata_event_statedump (s : EmSession) (chan : ust_registry_channel)
    (event : ust_registry_event) :
    Except Err Unit × EmSession × ust_registry_event :=
  if chan.chan_id = UINT32_MAX then (.ok (), s, event)
  else if !chan.metadata_dumped || event.metadata_dumped then (.ok (), s, event)
  else
    match (do
      lttng_metadata_printf ("event \x7b\n\tname = \"" ++ event.name ++
        "\";\n\tid = " ++ toString event.id ++ ";\n\tstream_id = " ++
        toString chan.chan_id ++ ";\n")
      lttng_metadata_printf ("\tloglevel = " ++ toString event.loglevel_value ++ ";\n")
      (match event.model_emf_uri with
       | Option.some uri =>
         lttng_metadata_printf ("\tmodel.emf.uri = \"" ++ uri ++ "\";\n")
       | Option.none => pure ())
      lttng_metadata_printf "\tfields := struct \x7b\n"
      _lttng_fields_metadata_statedump event.fields
      lttng_metadata_printf "\t\x7d;\n\x7d;\n\n") s with
    | (.ok _, s') => (.ok (), s', { event with metadata_dumped := true })
    | (.error e, s') => (.error e, s', event)

/-- `a->id < b->id` made reflexive: the `std::sort` comparator's induced
ordering.  On the pairwise-distinct ids of a channel's events any
comparison sort produces the same, unique sorted permutation, so
insertion sort models `std::sort` faithfully there. -/
def event_id_le (a b : ust_registry_event) : Prop := a.id ≤ b.id

instance : DecidableRel event_id_le := fun a b => Nat.decLe a.id b.id

def sort_events_by_id (es : List ust_registry_event) : List ust_registry_event :=
  List.insertionSort event_id_le es

/-- The final loop of `ust_metadata_channel_statedump`: dump each event in
order, ignoring the per-event return code (the session mutations and any
flag updates are kept). -/
def dump_event_list (chan : ust_registry_channel) :
    List ust_registry_event → EmSession → EmSession × List ust_registry_event
  | [], s => (s, [])
  | e :: rest, s =>
    match ust_metadata_event_statedump s chan e with
    | (_, s1, e1) =>
      match dump_event_list chan rest s1 with
      | (s2, rest2) => (s2, e1 :: rest2)

/-- `ust_metadata_channel_statedump` from ust-metadata.cpp: sentinel
check, header-type check, stream block, optional wrapped context block,
set `metadata_dumped`, then dump all events sorted by id ascending,
ignoring their return codes, and return 0. -/
def ust_metadata_channel_statedump (s : EmSession)
    (chan : ust_registry_channel) :
    Except Err Unit × EmSession × ust_registry_channel :=
  if chan.chan_id = UINT32_MAX then (.ok (), s, chan)
  else if chan.header_type = HeaderType.unset then (.error .einval, s, chan)
  else
    match (do
      lttng_metadata_printf ("stream \x7b\n\tid = " ++ toString chan.chan_id ++
        ";\n\tevent.header := " ++
        (if chan.header_type = HeaderType.compact then "struct event_header_compact"
         else "struct event_header_large") ++
        ";\n\tpacket.context := struct packet_context;\n")
      (match chan.ctx_fields with
       | Option.some _ => lttng_metadata_printf "\tevent.context := struct \x7b\n"
       | Option.none => pure ())
      _lttng_context_metadata_statedump chan.ctx_fields
      (match chan.ctx_fields with
       | Option.some _ => lttng_metadata_printf "\t\x7d;\n"
       | Option.none => pure ())
      lttng_metadata_printf "\x7d;\n\n") s with
    | (.error e, s') => (.error e, s', chan)
    | (.ok _, s') =>
      let chanReady := { chan with metadata_dumped := true }
      match dump_event_list chanReady (sort_events_by_id chan.events) s' with
      | (s'', events') => (.ok (), s'', { chanReady with events := events' })

/-! ### Extension lemmas for the dump entry points -/

theorem fields_statedump_loop_ext_aux (fields : List lttng_ust_ctl_field) :
    ∀ N i s, fields.length - i ≤ N →
      EmExtends s (fields_statedump_loop fields i s).2 := by
  intro N
  induction N with
  | zero =>
    intro i s hN
    rw [fields_statedump_loop]
    split
    · omega
    · exact emext_refl s
  | succ N ih =>
    intro i s hN
    rw [fields_statedump_loop]
    split
    · rename_i h
      rcases hw : _lttng_field_statedump fields i 2 s with ⟨res, sess, it, adv, hext⟩
      cases res with
      | ok a =>
        simp only []
        have hlt : i < it := adv rfl
        exact emext_trans hext (ih it sess (by omega))
      | error e =>
        simpa using hext
    · exact emext_refl s

theorem fields_statedump_loop_ext (fields : List lttng_ust_ctl_field)
    (i : Nat) (s : EmSession) :
    EmExtends s (fields_statedump_loop fields i s).2 :=
  fields_statedump_loop_ext_aux fields fields.length i s (by omega)

theorem MExtends_fields_metadata_statedump (efields : List lttng_ust_ctl_field) :
    MExtends (_lttng_fields_metadata_statedump efields) :=
  fun s => fields_statedump_loop_ext efields 0 s

theorem MExtends_context_metadata_statedump
    (ctx : Option (List lttng_ust_ctl_field)) :
    MExtends (_lttng_context_metadata_statedump ctx) := by
  intro s
  unfold _lttng_context_metadata_statedump
  match ctx with
  | Option.none => exact emext_refl s
  | Option.some l => exact fields_statedump_loop_ext l 0 s

/-- Running the emission program of an event dump and then branching on
its result (flag set on success) only appends to the output. -/
theorem emext_event_branch {p : M Unit} (hp : MExtends p) (s : EmSession)
    (ev : ust_registry_event) :
    EmExtends s ((match p s with
      | (.ok _, s') => ((.ok () : Except Err Unit), s',
          { ev with metadata_dumped := true })
      | (.error e, s') => (.error e, s', ev)).2.1) := by
  rcases hr : p s with ⟨r, s'⟩
  match r with
  | .ok _ => simpa using MExtends_run hp hr
  | .error e => simpa using MExtends_run hp hr

theorem ust_metadata_event_statedump_ext (s : EmSession)
    (chan : ust_registry_channel) (event : ust_registry_event) :
    EmExtends s (ust_metadata_event_statedump s chan event).2.1 := by
  unfold ust_metadata_event_statedump
  split
  · exact emext_refl s
  · split
    · exact emext_refl s
    · apply emext_event_branch _ s event
      apply MExtends_bind (MExtends_printf _)
      intro _
      apply MExtends_bind (MExtends_printf _)
      intro _
      apply MExtends_bind ?uri
      case uri =>
        cases event.model_emf_uri
        · exact MExtends_pure ()
        · exact MExtends_printf _
      intro _
      apply MExtends_bind (MExtends_printf _)
      intro _
      apply MExtends_bind (MExtends_fields_metadata_statedump _)
      intro _
      exact MExtends_printf _

theorem dump_event_list_ext (chan : ust_registry_channel) :
    ∀ es s, EmExtends s (dump_event_list chan es s).1 := by
  intro es
  induction es with
  | nil => intro s; exact emext_refl s
  | cons e rest ih =>
    intro s
    unfold dump_event_list
    rcases hr : ust_metadata_event_statedump s chan e with ⟨r, s1, e1⟩
    have h1 : EmExtends s s1 := by
      have := ust_metadata_event_statedump_ext s chan e
      rw [hr] at this
      exact this
    rcases hr2 : dump_event_list chan rest s1 with ⟨s2, rest2⟩
    have h2 : EmExtends s1 s2 := by
      have := ih s1
      rw [hr2] at this
      exact this
    simp only [hr, hr2]
    exact emext_trans h1 h2

theorem ust_metadata_channel_statedump_ext (s : EmSession)
    (chan : ust_registry_channel) :
    EmExtends s (ust_metadata_channel_statedump s chan).2.1 := by
  unfold ust_metadata_channel_statedump
  split
  · exact emext_refl s
  · split
    · exact emext_refl s
    · have hp : MExtends (do
        lttng_metadata_printf ("stream \x7b\n\tid = " ++ toString chan.chan_id ++
          ";\n\tevent.header := " ++
          (if chan.header_type = HeaderType.compact then "struct event_header_compact"
           else "struct event_header_large") ++
          ";\n\tpacket.context := struct packet_context;\n")
        (match chan.ctx_fields with
         | Option.some _ => lttng_metadata_printf "\tevent.context := struct \x7b\n"
         | Option.none => pure ())
        _lttng_context_metadata_statedump chan.ctx_fields
        (match chan.ctx_fields with
         | Option.some _ => lttng_metadata_printf "\t\x7d;\n"
         | Option.none => pure ())
        lttng_metadata_printf "\x7d;\n\n") := by
        apply MExtends_bind (MExtends_printf _)
        intro _
        apply MExtends_bind ?ctxopen
        case ctxopen =>
          cases chan.ctx_fields
          · exact MExtends_pure ()
          · exact MExtends_printf _
        intro _
        apply MExtends_bind (MExtends_context_metadata_statedump _)
        intro _
        apply MExtends_bind ?ctxclose
        case ctxclose =>
          cases chan.ctx_fields
          · exact MExtends_pure ()
          · exact MExtends_printf _
        intro _
        exact MExtends_printf _
      rcases hr : (do
        lttng_metadata_printf ("stream \x7b\n\tid = " ++ toString chan.chan_id ++
          ";\n\tevent.header := " ++
          (if chan.header_type = HeaderType.compact then "struct event_header_compact"
           else "struct event_header_large") ++
          ";\n\tpacket.context := struct packet_context;\n")
        (match chan.ctx_fields with
         | Option.some _ => lttng_metadata_printf "\tevent.context := struct \x7b\n"
         | Option.none => pure ())
        _lttng_context_metadata_statedump chan.ctx_fields
        (match chan.ctx_fields with
         | Option.some _ => lttng_metadata_printf "\t\x7d;\n"
         | Option.none => pure ())
        lttng_metadata_printf "\x7d;\n\n") s with ⟨r, s'⟩
      rw [hr]
      have hss' : EmExtends s s' := MExtends_run hp hr
      match r with
      | .error e => simpa using hss'
      | .ok _ =>
        simp only []
        rcases hd : dump_event_list { chan with metadata_dumped := true }
            (sort_events_by_id chan.events) s' with ⟨s'', events'⟩
        have h2 : EmExtends s' s'' := by
          have := dump_event_list_ext { chan with metadata_dumped := true }
            (sort_events_by_id chan.events) s'
          rw [hd] at this
          exact this
        simpa using emext_trans hss' h2

/-! ### Run-decomposition helpers -/

theorem printf_ok_out {str : String} {s : EmSession} {a : Unit} {s' : EmSession}
    (h : lttng_metadata_printf str s = (.ok a, s')) : s'.out = s.out ++ str := by
  unfold lttng_metadata_printf at h
  rcases hg : reserve_grow s.out.length s.alloc_len str.length with e | na <;> rw [hg] at h
  · exact absurd h (by simp)
  · injection h with h1 h2
    rw [← h2]

theorem printf_error_state {str : String} {s : EmSession} {e : Err} {s' : EmSession}
    (h : lttng_metadata_printf str s = (.error e, s')) : s' = s := by
  unfold lttng_metadata_printf at h
  rcases hg : reserve_grow s.out.length s.alloc_len str.length with e' | na <;> rw [hg] at h
  · injection h with h1 h2
    exact h2.symm
  · exact absurd h (by simp)

theorem run_bind_ok {α β : Type} {x : M α} {f : α → M β} {s s0 : EmSession} {b : β}
    (h : (x >>= f) s = (.ok b, s0)) :
    ∃ a s1, x s = (.ok a, s1) ∧ f a s1 = (.ok b, s0) := by
  rw [M_bind_apply] at h
  rcases hx : x s with ⟨r1, s1⟩
  rw [hx] at h
  cases r1 with
  | ok a => exact ⟨a, s1, rfl, h⟩
  | error e => exact absurd h (by simp)

theorem event_branch_ok {p : M Unit} {s s' : EmSession}
    {ev e' : ust_registry_event}
    (h : (match p s with
      | (.ok _, x) => ((.ok () : Except Err Unit), x,
          { ev with metadata_dumped := true })
      | (.error e, x) => (.error e, x, ev)) = (.ok (), s', e')) :
    p s = (.ok (), s') ∧ e' = { ev with metadata_dumped := true } := by
  rcases hp : p s with ⟨r, x⟩
  rw [hp] at h
  cases r with
  | ok a =>
    simp only [Prod.mk.injEq] at h
    rcases h with ⟨-, h2, h3⟩
    subst h2
    exact ⟨rfl, h3.symm⟩
  | error e => simp at h

theorem event_branch_error {p : M Unit} {s s' : EmSession}
    {ev e' : ust_registry_event} {er : Err}
    (h : (match p s with
      | (.ok _, x) => ((.ok () : Except Err Unit), x,
          { ev with metadata_dumped := true })
      | (.error e, x) => (.error e, x, ev)) = (.error er, s', e')) :
    p s = (.error er, s') ∧ e' = ev := by
  rcases hp : p s with ⟨r, x⟩
  rw [hp] at h
  cases r with
  | ok a => simp at h
  | error e =>
    simp only [Prod.mk.injEq] at h
    rcases h with ⟨h1, h2, h3⟩
    subst h2
    exact ⟨by rw [h1], h3.symm⟩

/-! ### Claim C2 -/

/-- C2: dumping an event whose parent channel is not yet ready, or one
already dumped, is a silent no-op returning success (nothing appended,
flags and cursor unchanged); when the channel is ready and the event is
not dumped (and the channel is not the metadata sentinel), the event
block is emitted — the output grows by the event block starting with
`event {`/name/id/stream_id — and the `metadata_dumped` flag is set
exactly on overall success (on error it stays clear). -/
theorem C2_event_dump_gating :
    ∀ (s : EmSession) (chan : ust_registry_channel) (event : ust_registry_event),
      ((chan.metadata_dumped = false ∨ event.metadata_dumped = true) →
        ust_metadata_event_statedump s chan event = (.ok (), s, event))
      ∧ (chan.chan_id ≠ UINT32_MAX → chan.metadata_dumped = true →
         event.metadata_dumped = false →
          (∀ s' e', ust_metadata_event_statedump s chan event = (.ok (), s', e') →
            e'.metadata_dumped = true ∧
            ∃ t, s'.out = s.out ++ ("event \x7b\n\tname = \"" ++ event.name ++
              "\";\n\tid = " ++ toString event.id ++ ";\n\tstream_id = " ++
              toString chan.chan_id ++ ";\n") ++ t)
          ∧ (∀ er s' e',
              ust_metadata_event_statedump s chan event = (.error er, s', e') →
              e' = event)) := by
  intro s chan event
  constructor
  · intro hno
    unfold ust_metadata_event_statedump
    by_cases hsent : chan.chan_id = UINT32_MAX
    · simp [hsent]
    · have hgate : (!chan.metadata_dumped || event.metadata_dumped) = true := by
        rcases hno with h | h <;> simp [h]
      simp [hsent, hgate]
  · intro hid hcd hed
    have hgate : (!chan.metadata_dumped || event.metadata_dumped) = false := by
      simp [hcd, hed]
    constructor
    · intro s' e' hrun
      unfold ust_metadata_event_statedump at hrun
      rw [if_neg hid] at hrun
      rw [hgate] at hrun
      simp only [Bool.false_eq_true, if_false] at hrun
      rcases event_branch_ok hrun with ⟨hps, he'⟩
      refine ⟨by rw [he'], ?_⟩
      rcases run_bind_ok hps with ⟨a, s1, hp1, hk⟩
      have hout1 : s1.out = s.out ++ ("event \x7b\n\tname = \"" ++ event.name ++
          "\";\n\tid = " ++ toString event.id ++ ";\n\tstream_id = " ++
          toString chan.chan_id ++ ";\n") := printf_ok_out hp1
      have hext : EmExtends s1 s' := by
        refine MExtends_run ?_ hk
        apply MExtends_bind (MExtends_printf _)
        intro _
        apply MExtends_bind ?uri
        case uri =>
          cases event.model_emf_uri
          · exact MExtends_pure ()
          · exact MExtends_printf _
        intro _
        apply MExtends_bind (MExtends_printf _)
        intro _
        apply MExtends_bind (MExtends_fields_metadata_statedump _)
        intro _
        exact MExtends_printf _
      rcases hext with ⟨t, ht⟩
      exact ⟨t, by rw [ht, hout1]⟩
    · intro er s' e' hrun
      unfold ust_metadata_event_statedump at hrun
      rw [if_neg hid] at hrun
      rw [hgate] at hrun
      simp only [Bool.false_eq_true, if_false] at hrun
      exact (event_branch_error hrun).2

/-! ### Claim C10 -/

/-- C10: for a channel whose numeric id is the all-ones sentinel
(`-1U = UINT32_MAX`, the internal metadata channel), both the channel
dump and the event dump return success immediately: no bytes are
appended, and the channel (including its `metadata_dumped` latch and its
events) and the event are returned unchanged. -/
theorem C10_metadata_channel_sentinel :
    ∀ (s : EmSession) (chan : ust_registry_channel) (event : ust_registry_event),
      chan.chan_id = UINT32_MAX →
      ust_metadata_event_statedump s chan event = (.ok (), s, event)
      ∧ ust_metadata_channel_statedump s chan = (.ok (), s, chan) := by
  intro s chan event hid
  constructor
  · unfold ust_metadata_event_statedump
    simp [hid]
  · unfold ust_metadata_channel_statedump
    simp [hid]

theorem C10_metadata_channel_sentinel_witness :
    ust_metadata_event_statedump (⟨"", 0, false, []⟩ : EmSession)
        (⟨UINT32_MAX, HeaderType.compact, Option.none, false,
          [⟨"a", 1, 0, Option.none, [], false⟩]⟩ : ust_registry_channel)
        (⟨"a", 1, 0, Option.none, [], false⟩ : ust_registry_event) =
      (.ok (), ⟨"", 0, false, []⟩, ⟨"a", 1, 0, Option.none, [], false⟩)
    ∧ ust_metadata_channel_statedump (⟨"", 0, false, []⟩ : EmSession)
        (⟨UINT32_MAX, HeaderType.compact, Option.none, false,
          [⟨"a", 1, 0, Option.none, [], false⟩]⟩ : ust_registry_channel) =
      (.ok (), ⟨"", 0, false, []⟩,
        ⟨UINT32_MAX, HeaderType.compact, Option.none, false,
          [⟨"a", 1, 0, Option.none, [], false⟩]⟩) :=
  C10_metadata_channel_sentinel ⟨"", 0, false, []⟩
    ⟨UINT32_MAX, HeaderType.compact, Option.none, false,
      [⟨"a", 1, 0, Option.none, [], false⟩]⟩
    ⟨"a", 1, 0, Option.none, [], false⟩ rfl

/-! ### Claim C3 -/

/-- Dumping a list of events that are all already dumped changes
nothing: every per-event call hits the gate and is a success no-op. -/
theorem dump_event_list_all_dumped (chan : ust_registry_channel) :
    ∀ es s, (∀ e ∈ es, e.metadata_dumped = true) →
      dump_event_list chan es s = (s, es) := by
  intro es
  induction es with
  | nil => intro s _; rfl
  | cons e rest ih =>
    intro s h
    have he : e.metadata_dumped = true := h e (by simp)
    have hstep : ust_metadata_event_statedump s chan e = (.ok (), s, e) := by
      unfold ust_metadata_event_statedump
      by_cases hs : chan.chan_id = UINT32_MAX
      · simp [hs]
      · have hgate : (!chan.metadata_dumped || e.metadata_dumped) = true := by
          simp [he]
        simp [hs, hgate]
    unfold dump_event_list
    rw [hstep]
    simp only []
    rw [ih s (fun e' he' => h e' (by simp [he']))]

/-- The pre-loop emission of `ust_metadata_channel_statedump` (stream
block and optional wrapped context block), as a named program; it only
reads `chan_id`, `header_type` and `ctx_fields`. -/
def channel_block_program (chan : ust_registry_channel) : M Unit := do
  lttng_metadata_printf ("stream \x7b\n\tid = " ++ toString chan.chan_id ++
    ";\n\tevent.header := " ++
    (if chan.header_type = HeaderType.compact then "struct event_header_compact"
     else "struct event_header_large") ++
    ";\n\tpacket.context := struct packet_context;\n")
  (match chan.ctx_fields with
   | Option.some _ => lttng_metadata_printf "\tevent.context := struct \x7b\n"
   | Option.none => pure ())
  _lttng_context_metadata_statedump chan.ctx_fields
  (match chan.ctx_fields with
   | Option.some _ => lttng_metadata_printf "\t\x7d;\n"
   | Option.none => pure ())
  lttng_metadata_printf "\x7d;\n\n"

theorem channel_statedump_eq (s : EmSession) (chan : ust_registry_channel) :
    ust_metadata_channel_statedump s chan =
      if chan.chan_id = UINT32_MAX then (.ok (), s, chan)
      else if chan.header_type = HeaderType.unset then (.error .einval, s, chan)
      else
        match channel_block_program chan s with
        | (.error e, s') => (.error e, s', chan)
        | (.ok _, s') =>
          match dump_event_list { chan with metadata_dumped := true }
              (sort_events_by_id chan.events) s' with
          | (s'', events') =>
            (.ok (), s'', { chan with metadata_dumped := true, events := events' }) :=
  rfl

/-- C3 counterexample: on a channel with a set header type and no
children, a second `ust_metadata_channel_statedump` call appends the
whole stream header again (the function never checks
`chan->metadata_dumped`), refuting "dumping the same channel twice emits
its stream header exactly once". -/
theorem C3_counterexample :
    (ust_metadata_channel_statedump
        (ust_metadata_channel_statedump (⟨"", 0, false, []⟩ : EmSession)
          (⟨0, HeaderType.compact, Option.none, false, []⟩ : ust_registry_channel)).2.1
        (ust_metadata_channel_statedump (⟨"", 0, false, []⟩ : EmSession)
          (⟨0, HeaderType.compact, Option.none, false, []⟩ : ust_registry_channel)).2.2).2.1.out =
      (ust_metadata_channel_statedump (⟨"", 0, false, []⟩ : EmSession)
        (⟨0, HeaderType.compact, Option.none, false, []⟩ : ust_registry_channel)).2.1.out ++
      "stream \x7b\n\tid = 0;\n\tevent.header := struct event_header_compact;\n\tpacket.context := struct packet_context;\n\x7d;\n\n" := by
  rfl

/-- C3 (amended): event dumps are idempotent — after a successful event
dump the returned event is marked dumped and a second dump of it is a
success no-op emitting nothing; the channel dump, however, does not check
the channel's `metadata_dumped` flag and re-emits the stream header on a
second call, while still skipping already-dumped children: with all
children already dumped it appends exactly the bytes it would append with
no children at all (no repeated event blocks), and returns the same
code. -/
theorem C3_idempotence_amended :
    (∀ (s : EmSession) (chan : ust_registry_channel) (event : ust_registry_event)
       (s' : EmSession) (e' : ust_registry_event),
       chan.chan_id ≠ UINT32_MAX →
       ust_metadata_event_statedump s chan event = (.ok (), s', e') →
       chan.metadata_dumped = true → event.metadata_dumped = false →
       ust_metadata_event_statedump s' chan e' = (.ok (), s', e'))
    ∧ (∀ (s : EmSession) (chan : ust_registry_channel),
        (∀ e ∈ chan.events, e.metadata_dumped = true) →
        (ust_metadata_channel_statedump s chan).2.1 =
          (ust_metadata_channel_statedump s { chan with events := [] }).2.1
        ∧ (ust_metadata_channel_statedump s chan).1 =
          (ust_metadata_channel_statedump s { chan with events := [] }).1) := by
  constructor
  · intro s chan event s' e' hid hrun hcd hed
    have hgate : (!chan.metadata_dumped || event.metadata_dumped) = false := by
      simp [hcd, hed]
    unfold ust_metadata_event_statedump at hrun
    rw [if_neg hid] at hrun
    rw [hgate] at hrun
    simp only [Bool.false_eq_true, if_false] at hrun
    rcases event_branch_ok hrun with ⟨-, he'⟩
    have he2 : e'.metadata_dumped = true := by rw [he']
    unfold ust_metadata_event_statedump
    rw [if_neg hid]
    have hgate2 : (!chan.metadata_dumped || e'.metadata_dumped) = true := by
      simp [he2]
    rw [hgate2]
    simp
  · intro s chan hall
    rw [channel_statedump_eq s chan, channel_statedump_eq s { chan with events := [] }]
    by_cases hid : chan.chan_id = UINT32_MAX
    · simp [hid]
    · simp only [hid, if_false, if_neg]
      by_cases hht : chan.header_type = HeaderType.unset
      · simp [hht]
      · simp only [hht, if_false, if_neg]
        have hprog : channel_block_program { chan with events := [] } =
            channel_block_program chan := rfl
        rw [hprog]
        rcases hp : channel_block_program chan s with ⟨r0, s0⟩
        cases r0 with
        | error e => simp
        | ok a =>
          simp only []
          have hsorted_dumped : ∀ e ∈ sort_events_by_id chan.events,
              e.metadata_dumped = true := by
            intro e he
            have : e ∈ chan.events := by
              have hperm := List.perm_insertionSort event_id_le chan.events
              exact hperm.mem_iff.mp he
            exact hall e this
          rw [dump_event_list_all_dumped _ _ s0 hsorted_dumped]
          have hnil : sort_events_by_id ([] : List ust_registry_event) = [] := rfl
          rw [hnil]
          exact ⟨rfl, trivial⟩

/-- Walking an empty field list is an immediate success (one unfolding of
the cursor loop; stated separately because the loop is defined by
well-founded recursion and does not reduce definitionally). -/
theorem fields_statedump_loop_nil (i : Nat) (s : EmSession) :
    fields_statedump_loop [] i s = (.ok (), s) := by
  rw [fields_statedump_loop]
  simp

/-- Concrete run used by several witnesses: dumping a fresh, fieldless
event under a ready channel emits its block and marks it dumped. -/
theorem fields_metadata_statedump_nil :
    _lttng_fields_metadata_statedump [] = fun s => (.ok (), s) := by
  funext s
  exact fields_statedump_loop_nil 0 s

theorem event_a_concrete_run :
    ust_metadata_event_statedump (⟨"", 0, false, []⟩ : EmSession)
        (⟨0, HeaderType.compact, Option.none, true, []⟩ : ust_registry_channel)
        (⟨"a", 1, 0, Option.none, [], false⟩ : ust_registry_event) =
      (.ok (),
        ⟨"event \x7b\n\tname = \"a\";\n\tid = 1;\n\tstream_id = 0;\n\tloglevel = 0;\n\tfields := struct \x7b\n\t\x7d;\n\x7d;\n\n",
          128, false, []⟩,
        ⟨"a", 1, 0, Option.none, [], true⟩) := by
  simp only [ust_metadata_event_statedump, fields_metadata_statedump_nil]
  rfl

theorem C2_event_dump_gating_witness :
    ((⟨"a", 1, 0, Option.none, [], true⟩ : ust_registry_event).metadata_dumped = true
      ∧ ∃ t,
        (⟨"event \x7b\n\tname = \"a\";\n\tid = 1;\n\tstream_id = 0;\n\tloglevel = 0;\n\tfields := struct \x7b\n\t\x7d;\n\x7d;\n\n",
            128, false, []⟩ : EmSession).out =
          (⟨"", 0, false, []⟩ : EmSession).out ++
          ("event \x7b\n\tname = \"" ++ (⟨"a", 1, 0, Option.none, [], false⟩ :
              ust_registry_event).name ++
            "\";\n\tid = " ++ toString (⟨"a", 1, 0, Option.none, [], false⟩ :
              ust_registry_event).id ++
            ";\n\tstream_id = " ++ toString (⟨0, HeaderType.compact, Option.none,
              true, []⟩ : ust_registry_channel).chan_id ++ ";\n") ++ t)
    ∧ ust_metadata_event_statedump (⟨"", 0, false, []⟩ : EmSession)
        (⟨0, HeaderType.compact, Option.none, false, []⟩ : ust_registry_channel)
        (⟨"a", 1, 0, Option.none, [], false⟩ : ust_registry_event) =
      (.ok (), ⟨"", 0, false, []⟩, ⟨"a", 1, 0, Option.none, [], false⟩) := by
  constructor
  · exact ((C2_event_dump_gating ⟨"", 0, false, []⟩
      ⟨0, HeaderType.compact, Option.none, true, []⟩
      ⟨"a", 1, 0, Option.none, [], false⟩).2 (by decide) rfl rfl).1
      ⟨"event \x7b\n\tname = \"a\";\n\tid = 1;\n\tstream_id = 0;\n\tloglevel = 0;\n\tfields := struct \x7b\n\t\x7d;\n\x7d;\n\n",
        128, false, []⟩
      ⟨"a", 1, 0, Option.none, [], true⟩ event_a_concrete_run
  · exact (C2_event_dump_gating ⟨"", 0, false, []⟩
      ⟨0, HeaderType.compact, Option.none, false, []⟩
      ⟨"a", 1, 0, Option.none, [], false⟩).1 (Or.inl rfl)

theorem C3_idempotence_amended_witness :
    ust_metadata_event_statedump
        (⟨"event \x7b\n\tname = \"a\";\n\tid = 1;\n\tstream_id = 0;\n\tloglevel = 0;\n\tfields := struct \x7b\n\t\x7d;\n\x7d;\n\n",
            128, false, []⟩ : EmSession)
        (⟨0, HeaderType.compact, Option.none, true, []⟩ : ust_registry_channel)
        (⟨"a", 1, 0, Option.none, [], true⟩ : ust_registry_event) =
      (.ok (),
        ⟨"event \x7b\n\tname = \"a\";\n\tid = 1;\n\tstream_id = 0;\n\tloglevel = 0;\n\tfields := struct \x7b\n\t\x7d;\n\x7d;\n\n",
          128, false, []⟩,
        ⟨"a", 1, 0, Option.none, [], true⟩)
    ∧ ((ust_metadata_channel_statedump (⟨"", 0, false, []⟩ : EmSession)
          (⟨0, HeaderType.compact, Option.none, false,
            [⟨"a", 1, 0, Option.none, [], true⟩]⟩ : ust_registry_channel)).2.1 =
        (ust_metadata_channel_statedump (⟨"", 0, false, []⟩ : EmSession)
          (⟨0, HeaderType.compact, Option.none, false, []⟩ :
            ust_registry_channel)).2.1
      ∧ (ust_metadata_channel_statedump (⟨"", 0, false, []⟩ : EmSession)
          (⟨0, HeaderType.compact, Option.none, false,
            [⟨"a", 1, 0, Option.none, [], true⟩]⟩ : ust_registry_channel)).1 =
        (ust_metadata_channel_statedump (⟨"", 0, false, []⟩ : EmSession)
          (⟨0, HeaderType.compact, Option.none, false, []⟩ :
            ust_registry_channel)).1) := by
  constructor
  · exact C3_idempotence_amended.1 ⟨"", 0, false, []⟩
      ⟨0, HeaderType.compact, Option.none, true, []⟩
      ⟨"a", 1, 0, Option.none, [], false⟩
      ⟨"event \x7b\n\tname = \"a\";\n\tid = 1;\n\tstream_id = 0;\n\tloglevel = 0;\n\tfields := struct \x7b\n\t\x7d;\n\x7d;\n\n",
        128, false, []⟩
      ⟨"a", 1, 0, Option.none, [], true⟩ (by decide) event_a_concrete_run rfl rfl
  · exact C3_idempotence_amended.2 ⟨"", 0, false, []⟩
      ⟨0, HeaderType.compact, Option.none, false,
        [⟨"a", 1, 0, Option.none, [], true⟩]⟩
      (by
        intro e he
        rw [List.mem_singleton] at he
        subst he
        rfl)

/-! ### Claim C4 -/

instance : IsTotal ust_registry_event event_id_le :=
  ⟨fun a b => Nat.le_total a.id b.id⟩

instance : IsTrans ust_registry_event event_id_le :=
  ⟨fun _ _ _ => Nat.le_trans⟩

/-- The strict version of the `std::sort` comparator. -/
def event_id_lt (a b : ust_registry_event) : Prop := a.id < b.id

instance : DecidableRel event_id_lt := fun a b => Nat.decLt a.id b.id

instance : IsAntisymm ust_registry_event event_id_lt :=
  ⟨fun a b h1 h2 => absurd h2 (Nat.lt_asymm h1)⟩

/-- On events with pairwise-distinct ids, the sorted list is strictly
increasing by id. -/
theorem sort_events_strict (es : List ust_registry_event)
    (h : (es.map ust_registry_event.id).Nodup) :
    List.Pairwise event_id_lt (sort_events_by_id es) := by
  have hs : List.Sorted event_id_le (sort_events_by_id es) :=
    List.sorted_insertionSort event_id_le es
  have hperm : List.Perm (sort_events_by_id es) es :=
    List.perm_insertionSort event_id_le es
  have hnd : ((sort_events_by_id es).map ust_registry_event.id).Nodup :=
    ((hperm.map ust_registry_event.id).nodup_iff).mpr h
  have hne : (sort_events_by_id es).Pairwise (fun a b => a.id ≠ b.id) :=
    List.pairwise_map.mp hnd
  exact (List.Pairwise.and hs hne).imp
    (fun hab => Nat.lt_of_le_of_ne hab.1 hab.2)

set_option maxRecDepth 8192 in
/-- Per-event concrete runs for the registration-order example. -/
theorem c4_event1_run :
    ust_metadata_event_statedump (⟨"stream \x7b\n\tid = 0;\n\tevent.header := struct event_header_compact;\n\tpacket.context := struct packet_context;\n\x7d;\n\n", 128, false, []⟩ : EmSession)
      (⟨0, HeaderType.compact, Option.none, true, [⟨"e5", 5, 0, Option.none, [], false⟩, ⟨"e1", 1, 0, Option.none, [], false⟩, ⟨"e3", 3, 0, Option.none, [], false⟩]⟩ : ust_registry_channel) (⟨"e1", 1, 0, Option.none, [], false⟩ : ust_registry_event) =
    (.ok (), ⟨"stream \x7b\n\tid = 0;\n\tevent.header := struct event_header_compact;\n\tpacket.context := struct packet_context;\n\x7d;\n\nevent \x7b\n\tname = \"e1\";\n\tid = 1;\n\tstream_id = 0;\n\tloglevel = 0;\n\tfields := struct \x7b\n\t\x7d;\n\x7d;\n\n", 256, false, []⟩, ⟨"e1", 1, 0, Option.none, [], true⟩) := by
  simp only [ust_metadata_event_statedump, fields_metadata_statedump_nil]
  rfl

set_option maxRecDepth 8192 in
theorem c4_event3_run :
    ust_metadata_event_statedump (⟨"stream \x7b\n\tid = 0;\n\tevent.header := struct event_header_compact;\n\tpacket.context := struct packet_context;\n\x7d;\n\nevent \x7b\n\tname = \"e1\";\n\tid = 1;\n\tstream_id = 0;\n\tloglevel = 0;\n\tfields := struct \x7b\n\t\x7d;\n\x7d;\n\n", 256, false, []⟩ : EmSession)
      (⟨0, HeaderType.compact, Option.none, true, [⟨"e5", 5, 0, Option.none, [], false⟩, ⟨"e1", 1, 0, Option.none, [], false⟩, ⟨"e3", 3, 0, Option.none, [], false⟩]⟩ : ust_registry_channel) (⟨"e3", 3, 0, Option.none, [], false⟩ : ust_registry_event) =
    (.ok (), ⟨"stream \x7b\n\tid = 0;\n\tevent.header := struct event_header_compact;\n\tpacket.context := struct packet_context;\n\x7d;\n\nevent \x7b\n\tname = \"e1\";\n\tid = 1;\n\tstream_id = 0;\n\tloglevel = 0;\n\tfields := struct \x7b\n\t\x7d;\n\x7d;\n\nevent \x7b\n\tname = \"e3\";\n\tid = 3;\n\tstream_id = 0;\n\tloglevel = 0;\n\tfields := struct \x7b\n\t\x7d;\n\x7d;\n\n", 512, false, []⟩, ⟨"e3", 3, 0, Option.none, [], true⟩) := by
  simp only [ust_metadata_event_statedump, fields_metadata_statedump_nil]
  rfl

set_option maxRecDepth 8192 in
theorem c4_event5_run :
    ust_metadata_event_statedump (⟨"stream \x7b\n\tid = 0;\n\tevent.header := struct event_header_compact;\n\tpacket.context := struct packet_context;\n\x7d;\n\nevent \x7b\n\tname = \"e1\";\n\tid = 1;\n\tstream_id = 0;\n\tloglevel = 0;\n\tfields := struct \x7b\n\t\x7d;\n\x7d;\n\nevent \x7b\n\tname = \"e3\";\n\tid = 3;\n\tstream_id = 0;\n\tloglevel = 0;\n\tfields := struct \x7b\n\t\x7d;\n\x7d;\n\n", 512, false, []⟩ : EmSession)
      (⟨0, HeaderType.compact, Option.none, true, [⟨"e5", 5, 0, Option.none, [], false⟩, ⟨"e1", 1, 0, Option.none, [], false⟩, ⟨"e3", 3, 0, Option.none, [], false⟩]⟩ : ust_registry_channel) (⟨"e5", 5, 0, Option.none, [], false⟩ : ust_registry_event) =
    (.ok (), ⟨"stream \x7b\n\tid = 0;\n\tevent.header := struct event_header_compact;\n\tpacket.context := struct packet_context;\n\x7d;\n\nevent \x7b\n\tname = \"e1\";\n\tid = 1;\n\tstream_id = 0;\n\tloglevel = 0;\n\tfields := struct \x7b\n\t\x7d;\n\x7d;\n\nevent \x7b\n\tname = \"e3\";\n\tid = 3;\n\tstream_id = 0;\n\tloglevel = 0;\n\tfields := struct \x7b\n\t\x7d;\n\x7d;\n\nevent \x7b\n\tname = \"e5\";\n\tid = 5;\n\tstream_id = 0;\n\tloglevel = 0;\n\tfields := struct \x7b\n\t\x7d;\n\x7d;\n\n", 512, false, []⟩, ⟨"e5", 5, 0, Option.none, [], true⟩) := by
  simp only [ust_metadata_event_statedump, fields_metadata_statedump_nil]
  rfl

set_option maxRecDepth 32768 in
/-- C4: a channel dump walks its children sorted by numeric event id,
ascending.  (i) On pairwise-distinct ids the id sequence of the sorted
list is strictly increasing; (ii) every successful channel dump threads
its session and its stored events through `dump_event_list` applied to
exactly `sort_events_by_id` of the registered events; (iii) any
registration order of the ids 5, 1, 3 sorts to 1, 3, 5; (iv) in
particular, dumping a channel registered with ids [5, 1, 3] in that order
produces output in which `id = 1;` appears before `id = 3;` before
`id = 5;`. -/
theorem C4_channel_dump_event_order :
    (∀ es : List ust_registry_event, (es.map ust_registry_event.id).Nodup →
      List.Sorted (· < ·) ((sort_events_by_id es).map ust_registry_event.id))
    ∧ (∀ (s : EmSession) (chan : ust_registry_channel) (s' : EmSession)
         (chan' : ust_registry_channel),
        chan.chan_id ≠ UINT32_MAX →
        ust_metadata_channel_statedump s chan = (.ok (), s', chan') →
        ∃ s₁, channel_block_program chan s = (.ok (), s₁) ∧
          s' = (dump_event_list { chan with metadata_dumped := true }
            (sort_events_by_id chan.events) s₁).1 ∧
          chan'.events = (dump_event_list { chan with metadata_dumped := true }
            (sort_events_by_id chan.events) s₁).2)
    ∧ (∀ es : List ust_registry_event,
        es.Perm [⟨"e1", 1, 0, Option.none, [], false⟩, ⟨"e3", 3, 0, Option.none, [], false⟩, ⟨"e5", 5, 0, Option.none, [], false⟩] →
        sort_events_by_id es = [⟨"e1", 1, 0, Option.none, [], false⟩, ⟨"e3", 3, 0, Option.none, [], false⟩, ⟨"e5", 5, 0, Option.none, [], false⟩])
    ∧ ((ust_metadata_channel_statedump (⟨"", 0, false, []⟩ : EmSession)
          (⟨0, HeaderType.compact, Option.none, false,
            [⟨"e5", 5, 0, Option.none, [], false⟩, ⟨"e1", 1, 0, Option.none, [], false⟩, ⟨"e3", 3, 0, Option.none, [], false⟩]⟩ : ust_registry_channel)).2.1.out =
        "stream \x7b\n\tid = 0;\n\tevent.header := struct event_header_compact;\n\tpacket.context := struct packet_context;\n\x7d;\n\nevent \x7b\n\tname = \"e1\";\n" ++ "\tid = 1;\n" ++ "\tstream_id = 0;\n\tloglevel = 0;\n\tfields := struct \x7b\n\t\x7d;\n\x7d;\n\nevent \x7b\n\tname = \"e3\";\n" ++ "\tid = 3;\n" ++
        "\tstream_id = 0;\n\tloglevel = 0;\n\tfields := struct \x7b\n\t\x7d;\n\x7d;\n\nevent \x7b\n\tname = \"e5\";\n" ++ "\tid = 5;\n" ++ "\tstream_id = 0;\n\tloglevel = 0;\n\tfields := struct \x7b\n\t\x7d;\n\x7d;\n\n") := by
  refine ⟨?_, ?_, ?_, ?_⟩
  · intro es h
    exact List.pairwise_map.mpr (sort_events_strict es h)
  · intro s chan s' chan' hid hrun
    rw [channel_statedump_eq] at hrun
    rw [if_neg hid] at hrun
    by_cases hht : chan.header_type = HeaderType.unset
    · rw [if_pos hht] at hrun
      exact absurd hrun (by simp)
    · rw [if_neg hht] at hrun
      rcases hb : channel_block_program chan s with ⟨r0, s₁⟩
      rw [hb] at hrun
      cases r0 with
      | error e => exact absurd hrun (by simp)
      | ok a =>
        refine ⟨s₁, rfl, ?_⟩
        simp only [] at hrun
        rcases hd : dump_event_list { chan with metadata_dumped := true }
            (sort_events_by_id chan.events) s₁ with ⟨s'', events'⟩
        rw [hd] at hrun
        simp only [Prod.mk.injEq] at hrun
        rcases hrun with ⟨-, h2, h3⟩
        subst h2
        constructor
        · rfl
        · rw [← h3]
  · intro es hperm
    have hnd : (es.map ust_registry_event.id).Nodup := by
      have hm := hperm.map ust_registry_event.id
      exact (hm.nodup_iff).mpr (by simp)
    have hstrict := sort_events_strict es hnd
    have hperm2 : List.Perm (sort_events_by_id es)
        [⟨"e1", 1, 0, Option.none, [], false⟩, ⟨"e3", 3, 0, Option.none, [], false⟩, ⟨"e5", 5, 0, Option.none, [], false⟩] :=
      (List.perm_insertionSort event_id_le es).trans hperm
    refine List.eq_of_perm_of_sorted hperm2 hstrict ?_
    simp [List.Sorted, List.pairwise_cons, event_id_lt]
  · rw [channel_statedump_eq]
    rw [if_neg (by decide), if_neg (by decide)]
    have hb : channel_block_program
        (⟨0, HeaderType.compact, Option.none, false,
          [⟨"e5", 5, 0, Option.none, [], false⟩, ⟨"e1", 1, 0, Option.none, [], false⟩, ⟨"e3", 3, 0, Option.none, [], false⟩]⟩ : ust_registry_channel)
        (⟨"", 0, false, []⟩ : EmSession) = (.ok (), ⟨"stream \x7b\n\tid = 0;\n\tevent.header := struct event_header_compact;\n\tpacket.context := struct packet_context;\n\x7d;\n\n", 128, false, []⟩) := rfl
    rw [hb]
    simp only []
    have hsort : sort_events_by_id [⟨"e5", 5, 0, Option.none, [], false⟩, ⟨"e1", 1, 0, Option.none, [], false⟩, ⟨"e3", 3, 0, Option.none, [], false⟩] =
        [⟨"e1", 1, 0, Option.none, [], false⟩, ⟨"e3", 3, 0, Option.none, [], false⟩, ⟨"e5", 5, 0, Option.none, [], false⟩] := rfl
    rw [hsort]
    have hlist : dump_event_list ⟨0, HeaderType.compact, Option.none, true, [⟨"e5", 5, 0, Option.none, [], false⟩, ⟨"e1", 1, 0, Option.none, [], false⟩, ⟨"e3", 3, 0, Option.none, [], false⟩]⟩ [⟨"e1", 1, 0, Option.none, [], false⟩, ⟨"e3", 3, 0, Option.none, [], false⟩, ⟨"e5", 5, 0, Option.none, [], false⟩]
        ⟨"stream \x7b\n\tid = 0;\n\tevent.header := struct event_header_compact;\n\tpacket.context := struct packet_context;\n\x7d;\n\n", 128, false, []⟩ = (⟨"stream \x7b\n\tid = 0;\n\tevent.header := struct event_header_compact;\n\tpacket.context := struct packet_context;\n\x7d;\n\nevent \x7b\n\tname = \"e1\";\n\tid = 1;\n\tstream_id = 0;\n\tloglevel = 0;\n\tfields := struct \x7b\n\t\x7d;\n\x7d;\n\nevent \x7b\n\tname = \"e3\";\n\tid = 3;\n\tstream_id = 0;\n\tloglevel = 0;\n\tfields := struct \x7b\n\t\x7d;\n\x7d;\n\nevent \x7b\n\tname = \"e5\";\n\tid = 5;\n\tstream_id = 0;\n\tloglevel = 0;\n\tfields := struct \x7b\n\t\x7d;\n\x7d;\n\n", 512, false, []⟩, [⟨"e1", 1, 0, Option.none, [], true⟩, ⟨"e3", 3, 0, Option.none, [], true⟩, ⟨"e5", 5, 0, Option.none, [], true⟩]) := by
      simp only [dump_event_list, c4_event1_run, c4_event3_run, c4_event5_run]
    rw [hlist]
    rfl

set_option maxRecDepth 32768 in
/-- Concrete full channel run for the ids-[5,1,3] example. -/
theorem c4_channel_concrete_run :
    ust_metadata_channel_statedump (⟨"", 0, false, []⟩ : EmSession)
      (⟨0, HeaderType.compact, Option.none, false, [⟨"e5", 5, 0, Option.none, [], false⟩, ⟨"e1", 1, 0, Option.none, [], false⟩, ⟨"e3", 3, 0, Option.none, [], false⟩]⟩ : ust_registry_channel) =
    (.ok (), ⟨"stream \x7b\n\tid = 0;\n\tevent.header := struct event_header_compact;\n\tpacket.context := struct packet_context;\n\x7d;\n\nevent \x7b\n\tname = \"e1\";\n\tid = 1;\n\tstream_id = 0;\n\tloglevel = 0;\n\tfields := struct \x7b\n\t\x7d;\n\x7d;\n\nevent \x7b\n\tname = \"e3\";\n\tid = 3;\n\tstream_id = 0;\n\tloglevel = 0;\n\tfields := struct \x7b\n\t\x7d;\n\x7d;\n\nevent \x7b\n\tname = \"e5\";\n\tid = 5;\n\tstream_id = 0;\n\tloglevel = 0;\n\tfields := struct \x7b\n\t\x7d;\n\x7d;\n\n", 512, false, []⟩, (⟨0, HeaderType.compact, Option.none, true, [⟨"e1", 1, 0, Option.none, [], true⟩, ⟨"e3", 3, 0, Option.none, [], true⟩, ⟨"e5", 5, 0, Option.none, [], true⟩]⟩ : ust_registry_channel)) := by
  rw [channel_statedump_eq]
  rw [if_neg (by decide), if_neg (by decide)]
  have hb : channel_block_program (⟨0, HeaderType.compact, Option.none, false, [⟨"e5", 5, 0, Option.none, [], false⟩, ⟨"e1", 1, 0, Option.none, [], false⟩, ⟨"e3", 3, 0, Option.none, [], false⟩]⟩ : ust_registry_channel)
      (⟨"", 0, false, []⟩ : EmSession) = (.ok (), ⟨"stream \x7b\n\tid = 0;\n\tevent.header := struct event_header_compact;\n\tpacket.context := struct packet_context;\n\x7d;\n\n", 128, false, []⟩) := rfl
  rw [hb]
  simp only []
  have hsort : sort_events_by_id [⟨"e5", 5, 0, Option.none, [], false⟩, ⟨"e1", 1, 0, Option.none, [], false⟩, ⟨"e3", 3, 0, Option.none, [], false⟩] =
      [⟨"e1", 1, 0, Option.none, [], false⟩, ⟨"e3", 3, 0, Option.none, [], false⟩, ⟨"e5", 5, 0, Option.none, [], false⟩] := rfl
  rw [hsort]
  have hlist : dump_event_list ⟨0, HeaderType.compact, Option.none, true, [⟨"e5", 5, 0, Option.none, [], false⟩, ⟨"e1", 1, 0, Option.none, [], false⟩, ⟨"e3", 3, 0, Option.none, [], false⟩]⟩ [⟨"e1", 1, 0, Option.none, [], false⟩, ⟨"e3", 3, 0, Option.none, [], false⟩, ⟨"e5", 5, 0, Option.none, [], false⟩]
      ⟨"stream \x7b\n\tid = 0;\n\tevent.header := struct event_header_compact;\n\tpacket.context := struct packet_context;\n\x7d;\n\n", 128, false, []⟩ = (⟨"stream \x7b\n\tid = 0;\n\tevent.header := struct event_header_compact;\n\tpacket.context := struct packet_context;\n\x7d;\n\nevent \x7b\n\tname = \"e1\";\n\tid = 1;\n\tstream_id = 0;\n\tloglevel = 0;\n\tfields := struct \x7b\n\t\x7d;\n\x7d;\n\nevent \x7b\n\tname = \"e3\";\n\tid = 3;\n\tstream_id = 0;\n\tloglevel = 0;\n\tfields := struct \x7b\n\t\x7d;\n\x7d;\n\nevent \x7b\n\tname = \"e5\";\n\tid = 5;\n\tstream_id = 0;\n\tloglevel = 0;\n\tfields := struct \x7b\n\t\x7d;\n\x7d;\n\n", 512, false, []⟩, [⟨"e1", 1, 0, Option.none, [], true⟩, ⟨"e3", 3, 0, Option.none, [], true⟩, ⟨"e5", 5, 0, Option.none, [], true⟩]) := by
    simp only [dump_event_list, c4_event1_run, c4_event3_run, c4_event5_run]
  rw [hlist]

set_option maxRecDepth 32768 in
theorem C4_channel_dump_event_order_witness :
    List.Sorted (· < ·)
      ((sort_events_by_id [⟨"e5", 5, 0, Option.none, [], false⟩, ⟨"e1", 1, 0, Option.none, [], false⟩, ⟨"e3", 3, 0, Option.none, [], false⟩]).map ust_registry_event.id)
    ∧ (∃ s₁, channel_block_program (⟨0, HeaderType.compact, Option.none, false, [⟨"e5", 5, 0, Option.none, [], false⟩, ⟨"e1", 1, 0, Option.none, [], false⟩, ⟨"e3", 3, 0, Option.none, [], false⟩]⟩ : ust_registry_channel)
          (⟨"", 0, false, []⟩ : EmSession) = (.ok (), s₁) ∧
        ⟨"stream \x7b\n\tid = 0;\n\tevent.header := struct event_header_compact;\n\tpacket.context := struct packet_context;\n\x7d;\n\nevent \x7b\n\tname = \"e1\";\n\tid = 1;\n\tstream_id = 0;\n\tloglevel = 0;\n\tfields := struct \x7b\n\t\x7d;\n\x7d;\n\nevent \x7b\n\tname = \"e3\";\n\tid = 3;\n\tstream_id = 0;\n\tloglevel = 0;\n\tfields := struct \x7b\n\t\x7d;\n\x7d;\n\nevent \x7b\n\tname = \"e5\";\n\tid = 5;\n\tstream_id = 0;\n\tloglevel = 0;\n\tfields := struct \x7b\n\t\x7d;\n\x7d;\n\n", 512, false, []⟩ =
          (dump_event_list ⟨0, HeaderType.compact, Option.none, true, [⟨"e5", 5, 0, Option.none, [], false⟩, ⟨"e1", 1, 0, Option.none, [], false⟩, ⟨"e3", 3, 0, Option.none, [], false⟩]⟩
            (sort_events_by_id [⟨"e5", 5, 0, Option.none, [], false⟩, ⟨"e1", 1, 0, Option.none, [], false⟩, ⟨"e3", 3, 0, Option.none, [], false⟩]) s₁).1 ∧
        (⟨0, HeaderType.compact, Option.none, true, [⟨"e1", 1, 0, Option.none, [], true⟩, ⟨"e3", 3, 0, Option.none, [], true⟩, ⟨"e5", 5, 0, Option.none, [], true⟩]⟩ : ust_registry_channel).events =
          (dump_event_list ⟨0, HeaderType.compact, Option.none, true, [⟨"e5", 5, 0, Option.none, [], false⟩, ⟨"e1", 1, 0, Option.none, [], false⟩, ⟨"e3", 3, 0, Option.none, [], false⟩]⟩
            (sort_events_by_id [⟨"e5", 5, 0, Option.none, [], false⟩, ⟨"e1", 1, 0, Option.none, [], false⟩, ⟨"e3", 3, 0, Option.none, [], false⟩]) s₁).2)
    ∧ sort_events_by_id [⟨"e3", 3, 0, Option.none, [], false⟩, ⟨"e5", 5, 0, Option.none, [], false⟩, ⟨"e1", 1, 0, Option.none, [], false⟩] =
        [⟨"e1", 1, 0, Option.none, [], false⟩, ⟨"e3", 3, 0, Option.none, [], false⟩, ⟨"e5", 5, 0, Option.none, [], false⟩] := by
  refine ⟨?_, ?_, ?_⟩
  · exact C4_channel_dump_event_order.1
      [⟨"e5", 5, 0, Option.none, [], false⟩, ⟨"e1", 1, 0, Option.none, [], false⟩, ⟨"e3", 3, 0, Option.none, [], false⟩] (by decide)
  · exact C4_channel_dump_event_order.2.1 (⟨"", 0, false, []⟩ : EmSession)
      ⟨0, HeaderType.compact, Option.none, false, [⟨"e5", 5, 0, Option.none, [], false⟩, ⟨"e1", 1, 0, Option.none, [], false⟩, ⟨"e3", 3, 0, Option.none, [], false⟩]⟩ ⟨"stream \x7b\n\tid = 0;\n\tevent.header := struct event_header_compact;\n\tpacket.context := struct packet_context;\n\x7d;\n\nevent \x7b\n\tname = \"e1\";\n\tid = 1;\n\tstream_id = 0;\n\tloglevel = 0;\n\tfields := struct \x7b\n\t\x7d;\n\x7d;\n\nevent \x7b\n\tname = \"e3\";\n\tid = 3;\n\tstream_id = 0;\n\tloglevel = 0;\n\tfields := struct \x7b\n\t\x7d;\n\x7d;\n\nevent \x7b\n\tname = \"e5\";\n\tid = 5;\n\tstream_id = 0;\n\tloglevel = 0;\n\tfields := struct \x7b\n\t\x7d;\n\x7d;\n\n", 512, false, []⟩ ⟨0, HeaderType.compact, Option.none, true, [⟨"e1", 1, 0, Option.none, [], true⟩, ⟨"e3", 3, 0, Option.none, [], true⟩, ⟨"e5", 5, 0, Option.none, [], true⟩]⟩ (by decide) c4_channel_concrete_run
  · exact C4_channel_dump_event_order.2.2.1
      [⟨"e3", 3, 0, Option.none, [], false⟩, ⟨"e5", 5, 0, Option.none, [], false⟩, ⟨"e1", 1, 0, Option.none, [], false⟩] (by decide)

/-! ### Claim C8 -/

/-- A struct field descriptor declaring a nonzero field count makes the
walker fail with EINVAL before emitting anything. -/
theorem bad_struct_field_loop (s : EmSession) :
    fields_statedump_loop [⟨"f", FieldType.struct_legacy 1⟩] 0 s =
      (.error .einval, s) := by
  rw [fields_statedump_loop]
  simp only [_lttng_field_statedump]
  rfl

theorem fields_metadata_statedump_bad :
    _lttng_fields_metadata_statedump [⟨"f", FieldType.struct_legacy 1⟩] =
      fun s => (.error .einval, s) := by
  funext s
  exact bad_struct_field_loop s

set_option maxRecDepth 32768 in
/-- Concrete failing child-event dump: its block is emitted up to the
field list, then the bad field aborts with EINVAL and the `dumped` flag
stays clear. -/
theorem bad_event_concrete_run :
    ust_metadata_event_statedump (⟨"stream \x7b\n\tid = 0;\n\tevent.header := struct event_header_compact;\n\tpacket.context := struct packet_context;\n\x7d;\n\n", 128, false, []⟩ : EmSession)
      (⟨0, HeaderType.compact, Option.none, true, [⟨"bad", 7, 0, Option.none, [⟨"f", FieldType.struct_legacy 1⟩], false⟩]⟩ : ust_registry_channel)
      (⟨"bad", 7, 0, Option.none, [⟨"f", FieldType.struct_legacy 1⟩], false⟩ : ust_registry_event) =
    (.error .einval, ⟨"stream \x7b\n\tid = 0;\n\tevent.header := struct event_header_compact;\n\tpacket.context := struct packet_context;\n\x7d;\n\nevent \x7b\n\tname = \"bad\";\n\tid = 7;\n\tstream_id = 0;\n\tloglevel = 0;\n\tfields := struct \x7b\n", 256, false, []⟩, ⟨"bad", 7, 0, Option.none, [⟨"f", FieldType.struct_legacy 1⟩], false⟩) := by
  simp only [ust_metadata_event_statedump, fields_metadata_statedump_bad]
  rfl

set_option maxRecDepth 32768 in
/-- C8 counterexample: a channel dump whose own emission succeeds but
whose only child event dump fails with EINVAL still returns success; the
channel is flagged dumped, the child's flag stays clear, and the child's
partial block is retained in the buffer — refuting "a channel dump whose
own emission succeeds but one of whose child event dumps fails returns
that child's error as its result". -/
theorem C8_counterexample :
    (ust_metadata_channel_statedump (⟨"", 0, false, []⟩ : EmSession)
        (⟨0, HeaderType.compact, Option.none, false, [⟨"bad", 7, 0, Option.none, [⟨"f", FieldType.struct_legacy 1⟩], false⟩]⟩ : ust_registry_channel)).1 = .ok ()
    ∧ (ust_metadata_channel_statedump (⟨"", 0, false, []⟩ : EmSession)
        (⟨0, HeaderType.compact, Option.none, false, [⟨"bad", 7, 0, Option.none, [⟨"f", FieldType.struct_legacy 1⟩], false⟩]⟩ : ust_registry_channel)).2.2.metadata_dumped = true
    ∧ (ust_metadata_channel_statedump (⟨"", 0, false, []⟩ : EmSession)
        (⟨0, HeaderType.compact, Option.none, false, [⟨"bad", 7, 0, Option.none, [⟨"f", FieldType.struct_legacy 1⟩], false⟩]⟩ : ust_registry_channel)).2.2.events.map
          ust_registry_event.metadata_dumped = [false]
    ∧ (ust_metadata_channel_statedump (⟨"", 0, false, []⟩ : EmSession)
        (⟨0, HeaderType.compact, Option.none, false, [⟨"bad", 7, 0, Option.none, [⟨"f", FieldType.struct_legacy 1⟩], false⟩]⟩ : ust_registry_channel)).2.1.out =
        "stream \x7b\n\tid = 0;\n\tevent.header := struct event_header_compact;\n\tpacket.context := struct packet_context;\n\x7d;\n\n" ++ "event \x7b\n\tname = \"bad\";\n\tid = 7;\n\tstream_id = 0;\n\tloglevel = 0;\n\tfields := struct \x7b\n"
    ∧ (ust_metadata_event_statedump (⟨"stream \x7b\n\tid = 0;\n\tevent.header := struct event_header_compact;\n\tpacket.context := struct packet_context;\n\x7d;\n\n", 128, false, []⟩ : EmSession)
        (⟨0, HeaderType.compact, Option.none, true, [⟨"bad", 7, 0, Option.none, [⟨"f", FieldType.struct_legacy 1⟩], false⟩]⟩ : ust_registry_channel)
        (⟨"bad", 7, 0, Option.none, [⟨"f", FieldType.struct_legacy 1⟩], false⟩ : ust_registry_event)).1 = .error .einval := by
  have hrun : ust_metadata_channel_statedump (⟨"", 0, false, []⟩ : EmSession)
      (⟨0, HeaderType.compact, Option.none, false, [⟨"bad", 7, 0, Option.none, [⟨"f", FieldType.struct_legacy 1⟩], false⟩]⟩ : ust_registry_channel) =
      (.ok (), ⟨"stream \x7b\n\tid = 0;\n\tevent.header := struct event_header_compact;\n\tpacket.context := struct packet_context;\n\x7d;\n\nevent \x7b\n\tname = \"bad\";\n\tid = 7;\n\tstream_id = 0;\n\tloglevel = 0;\n\tfields := struct \x7b\n", 256, false, []⟩, (⟨0, HeaderType.compact, Option.none, true, [⟨"bad", 7, 0, Option.none, [⟨"f", FieldType.struct_legacy 1⟩], false⟩]⟩ : ust_registry_channel)) := by
    rw [channel_statedump_eq]
    rw [if_neg (by decide), if_neg (by decide)]
    have hb : channel_block_program (⟨0, HeaderType.compact, Option.none, false, [⟨"bad", 7, 0, Option.none, [⟨"f", FieldType.struct_legacy 1⟩], false⟩]⟩ : ust_registry_channel)
        (⟨"", 0, false, []⟩ : EmSession) = (.ok (), ⟨"stream \x7b\n\tid = 0;\n\tevent.header := struct event_header_compact;\n\tpacket.context := struct packet_context;\n\x7d;\n\n", 128, false, []⟩) := rfl
    rw [hb]
    simp only []
    have hsort : sort_events_by_id [(⟨"bad", 7, 0, Option.none, [⟨"f", FieldType.struct_legacy 1⟩], false⟩ : ust_registry_event)] =
        [(⟨"bad", 7, 0, Option.none, [⟨"f", FieldType.struct_legacy 1⟩], false⟩ : ust_registry_event)] := rfl
    rw [hsort]
    have hlist : dump_event_list (⟨0, HeaderType.compact, Option.none, true, [⟨"bad", 7, 0, Option.none, [⟨"f", FieldType.struct_legacy 1⟩], false⟩]⟩ : ust_registry_channel)
        [(⟨"bad", 7, 0, Option.none, [⟨"f", FieldType.struct_legacy 1⟩], false⟩ : ust_registry_event)] (⟨"stream \x7b\n\tid = 0;\n\tevent.header := struct event_header_compact;\n\tpacket.context := struct packet_context;\n\x7d;\n\n", 128, false, []⟩ : EmSession) =
        (⟨"stream \x7b\n\tid = 0;\n\tevent.header := struct event_header_compact;\n\tpacket.context := struct packet_context;\n\x7d;\n\nevent \x7b\n\tname = \"bad\";\n\tid = 7;\n\tstream_id = 0;\n\tloglevel = 0;\n\tfields := struct \x7b\n", 256, false, []⟩, [(⟨"bad", 7, 0, Option.none, [⟨"f", FieldType.struct_legacy 1⟩], false⟩ : ust_registry_event)]) := by
      simp only [dump_event_list, bad_event_concrete_run]
    rw [hlist]
  rw [hrun]
  refine ⟨rfl, rfl, rfl, rfl, ?_⟩
  rw [bad_event_concrete_run]

/-- C8 (amended): every event or channel dump only appends to the buffer
— partial output already written is retained on error, never rolled back
(each failing step propagates its error immediately through the `goto
end` chain); a channel dump's return code, however, only reflects its own
stream/context emission: child event dump failures are ignored, and its
result is identical to what it would return with no children at all. -/
theorem C8_error_propagation_amended :
    (∀ (s : EmSession) (chan : ust_registry_channel) (event : ust_registry_event),
      ∃ t, (ust_metadata_event_statedump s chan event).2.1.out = s.out ++ t)
    ∧ (∀ (s : EmSession) (chan : ust_registry_channel),
      ∃ t, (ust_metadata_channel_statedump s chan).2.1.out = s.out ++ t)
    ∧ (∀ (s : EmSession) (chan : ust_registry_channel),
      (ust_metadata_channel_statedump s chan).1 =
        (ust_metadata_channel_statedump s { chan with events := [] }).1) := by
  refine ⟨?_, ?_, ?_⟩
  · intro s chan event
    exact ust_metadata_event_statedump_ext s chan event
  · intro s chan
    exact ust_metadata_channel_statedump_ext s chan
  · intro s chan
    rw [channel_statedump_eq s chan, channel_statedump_eq s { chan with events := [] }]
    by_cases hid : chan.chan_id = UINT32_MAX
    · simp [hid]
    · simp only [hid, if_false, if_neg]
      by_cases hht : chan.header_type = HeaderType.unset
      · simp [hht]
      · simp only [hht, if_false, if_neg]
        have hprog : channel_block_program { chan with events := [] } =
            channel_block_program chan := rfl
        rw [hprog]
        rcases hp : channel_block_program chan s with ⟨r0, s0⟩
        cases r0 with
        | error e => simp
        | ok a =>
          simp only []

/-! ### Output characterization of the escaping loops -/

theorem string_mk_append (l1 l2 : List Char) :
    String.mk l1 ++ String.mk l2 = String.mk (l1 ++ l2) := rfl

theorem string_append_assoc (a b c : String) : a ++ b ++ c = a ++ (b ++ c) := by
  cases a with
  | mk la =>
    cases b with
    | mk lb =>
      cases c with
      | mk lc =>
        show String.mk (la ++ lb ++ lc) = String.mk (la ++ (lb ++ lc))
        rw [List.append_assoc]

theorem print_tabs_ok_out : ∀ (n : Nat) (s s' : EmSession),
    print_tabs n s = (.ok (), s') →
    s'.out = s.out ++ String.mk (List.replicate n '\t') := by
  intro n
  induction n with
  | zero =>
    intro s s' h
    injection h with h1 h2
    rw [← h2]
    simp
  | succ n ih =>
    intro s s' h
    unfold print_tabs at h
    rcases run_bind_ok h with ⟨a, s1, h1, h2⟩
    rw [ih s1 s' h2, printf_ok_out h1, string_append_assoc]
    rfl

theorem print_enum_label_chars_ok_out : ∀ (cs : List Char) (s s' : EmSession),
    print_enum_label_chars cs s = (.ok (), s') →
    s'.out = s.out ++ (cs.map escape_enum_label_char).foldr (· ++ ·) "" := by
  intro cs
  induction cs with
  | nil =>
    intro s s' h
    injection h with h1 h2
    rw [← h2]
    simp
  | cons c rest ih =>
    intro s s' h
    unfold print_enum_label_chars at h
    rcases run_bind_ok h with ⟨a, s1, h1, h2⟩
    have hout1 : s1.out = s.out ++ escape_enum_label_char c := by
      by_cases hq : c = '"'
      · rw [if_pos hq] at h1
        rw [printf_ok_out h1, escape_enum_label_char, if_pos hq]
      · by_cases hb : c = '\\'
        · rw [if_neg hq, if_pos hb] at h1
          rw [printf_ok_out h1, escape_enum_label_char, if_neg hq, if_pos hb]
        · rw [if_neg hq, if_neg hb] at h1
          rw [printf_ok_out h1, escape_enum_label_char, if_neg hq, if_neg hb]
    rw [ih s1 s' h2, hout1, string_append_assoc]
    rfl

theorem print_escaped_ctf_string_ok_out : ∀ (cs : List Char) (s s' : EmSession),
    print_escaped_ctf_string cs s = (.ok (), s') →
    s'.out = s.out ++ (cs.map escape_ctf_char).foldr (· ++ ·) "" := by
  intro cs
  induction cs with
  | nil =>
    intro s s' h
    injection h with h1 h2
    rw [← h2]
    simp
  | cons c rest ih =>
    intro s s' h
    unfold print_escaped_ctf_string at h
    rcases run_bind_ok h with ⟨a, s1, h1, h2⟩
    have hout1 : s1.out = s.out ++ escape_ctf_char c := by
      by_cases hn : c = '\n'
      · rw [if_pos hn] at h1
        rw [printf_ok_out h1, escape_ctf_char, if_pos hn]
      · by_cases hq : c = '\\' ∨ c = '"'
        · rw [if_neg hn, if_pos hq] at h1
          rcases run_bind_ok h1 with ⟨b, sm, hb1, hb2⟩
          rw [printf_ok_out hb2, printf_ok_out hb1, string_append_assoc,
            escape_ctf_char, if_neg hn, if_pos hq, string_mk_append]
          rfl
        · rw [if_neg hn, if_neg hq] at h1
          rw [printf_ok_out h1, escape_ctf_char, if_neg hn, if_neg hq]
    rw [ih s1 s' h2, hout1, string_append_assoc]
    rfl

/-! ### Claim C5 -/

/-- C5: the two escaping routines differ exactly as specified.  A
successful run of the free-form escaper appends, for each input
character, `\n` for a newline, a backslash-prefixed `\` or `"`, and the
character itself otherwise; the enum-label escaper escapes only `"` and
`\` and copies a newline (and every other character) verbatim; the
string `He said "hi"` + newline + `Bye` renders through the free-form
escaper as `He said \"hi\"\nBye` with a literal backslash-n. -/
theorem C5_escaping :
    (∀ (cs : List Char) (s s' : EmSession),
        print_escaped_ctf_string cs s = (.ok (), s') →
        s'.out = s.out ++ (cs.map escape_ctf_char).foldr (· ++ ·) "")
    ∧ (∀ (cs : List Char) (s s' : EmSession),
        print_enum_label_chars cs s = (.ok (), s') →
        s'.out = s.out ++ (cs.map escape_enum_label_char).foldr (· ++ ·) "")
    ∧ escape_ctf_char '\n' = "\\n"
    ∧ escape_enum_label_char '\n' = String.mk ['\n']
    ∧ (∀ c, c = '\\' ∨ c = '"' →
        escape_ctf_char c = String.mk ['\\', c]
        ∧ escape_enum_label_char c = String.mk ['\\', c])
    ∧ (∀ c, c ≠ '\n' → c ≠ '\\' → c ≠ '"' →
        escape_ctf_char c = String.mk [c]
        ∧ escape_enum_label_char c = String.mk [c])
    ∧ escape_ctf_string "He said \"hi\"\nBye" = "He said \\\"hi\\\"\\nBye" := by
  refine ⟨print_escaped_ctf_string_ok_out, print_enum_label_chars_ok_out,
    rfl, rfl, ?_, ?_, ?_⟩
  · intro c hc
    constructor
    · rw [escape_ctf_char, if_neg (by rcases hc with h | h <;> subst h <;> decide),
        if_pos hc]
    · rcases hc with h | h <;> subst h <;> rfl
  · intro c h1 h2 h3
    constructor
    · rw [escape_ctf_char, if_neg h1, if_neg (by tauto)]
    · rw [escape_enum_label_char, if_neg h3, if_neg h2]
  · rfl

theorem C5_escaping_witness :
    ((⟨"x\\n", 4, false, []⟩ : EmSession).out =
      (⟨"x", 1, false, []⟩ : EmSession).out ++
        (['\n'].map escape_ctf_char).foldr (· ++ ·) "")
    ∧ ((⟨"y\n", 2, false, []⟩ : EmSession).out =
      (⟨"y", 1, false, []⟩ : EmSession).out ++
        (['\n'].map escape_enum_label_char).foldr (· ++ ·) "")
    ∧ (escape_ctf_char '\\' = String.mk ['\\', '\\']
       ∧ escape_enum_label_char '\\' = String.mk ['\\', '\\'])
    ∧ (escape_ctf_char 'z' = String.mk ['z']
       ∧ escape_enum_label_char 'z' = String.mk ['z']) := by
  refine ⟨?_, ?_, ?_, ?_⟩
  · exact C5_escaping.1 ['\n'] ⟨"x", 1, false, []⟩ ⟨"x\\n", 4, false, []⟩ (by rfl)
  · exact C5_escaping.2.1 ['\n'] ⟨"y", 1, false, []⟩ ⟨"y\n", 2, false, []⟩ (by rfl)
  · exact C5_escaping.2.2.2.2.1 '\\' (Or.inl rfl)
  · exact C5_escaping.2.2.2.2.2.1 'z' (by decide) (by decide) (by decide)

/-! ### Output characterization of the enum dump -/

/-- The text one enum entry contributes (at the already-incremented
nesting): quoted escaped label, then `,` if auto-valued, `= v,` for a
single value (same signedness and same raw value on both bounds), and
`= start ... end,` otherwise, each bound rendered signed or unsigned by
its own signedness flag. -/
def enum_entry_text (nesting : Nat) (e : EnumEntry) : String :=
  String.mk (List.replicate nesting '\t') ++ "\"" ++ escape_enum_label e.string ++
  "\"" ++
  (if e.is_auto then ",\n"
   else " = " ++ enum_value_str e.start ++
     (if e.start.signedness = e.end_.signedness ∧ e.start.value = e.end_.value
      then ",\n"
      else " ... " ++ enum_value_str e.end_ ++ ",\n"))

/-- The `enum : integer { ... } {` header line. -/
def enum_header_text (ct : IntegerType) : String :=
  "enum : integer \x7b size = " ++ toString ct.size ++
  "; align = " ++ toString ct.alignment ++
  "; signed = " ++ toString ct.signedness ++
  "; encoding = " ++ encoding_str ct.encoding ++
  "; base = " ++ toString ct.base ++ "; \x7d \x7b\n"

theorem print_enum_entry_ok_out (nesting : Nat) (e : EnumEntry)
    (s s' : EmSession) (h : print_enum_entry nesting e s = (.ok (), s')) :
    s'.out = s.out ++ enum_entry_text nesting e := by
  unfold print_enum_entry at h
  rcases run_bind_ok h with ⟨_, s1, ht, h⟩
  rcases run_bind_ok h with ⟨_, s2, hq1, h⟩
  rcases run_bind_ok h with ⟨_, s3, hlab, h⟩
  rcases run_bind_ok h with ⟨_, s4, hq2, h⟩
  have o1 := print_tabs_ok_out nesting s s1 ht
  have o2 := printf_ok_out hq1
  have o3 := print_enum_label_chars_ok_out e.string.data s2 s3 hlab
  have o4 := printf_ok_out hq2
  have otail : s'.out = s4.out ++
      (if e.is_auto then ",\n"
       else " = " ++ enum_value_str e.start ++
         (if e.start.signedness = e.end_.signedness ∧
             e.start.value = e.end_.value
          then ",\n"
          else " ... " ++ enum_value_str e.end_ ++ ",\n")) := by
    by_cases ha : e.is_auto
    · rw [if_pos ha] at h
      rw [if_pos ha]
      exact printf_ok_out h
    · rw [if_neg ha] at h
      rw [if_neg ha]
      rcases run_bind_ok h with ⟨_, s5, he1, h⟩
      rcases run_bind_ok h with ⟨_, s6, he2, h⟩
      have p1 := printf_ok_out he1
      have p2 := printf_ok_out he2
      by_cases hc : e.start.signedness = e.end_.signedness ∧
          e.start.value = e.end_.value
      · rw [if_pos hc] at h
        rw [if_pos hc, printf_ok_out h, p2, p1]
        simp only [string_append_assoc]
      · rw [if_neg hc] at h
        rw [if_neg hc, printf_ok_out h, p2, p1]
        simp only [string_append_assoc]
  rw [otail, o4, o3, o2, o1, enum_entry_text]
  simp only [string_append_assoc]
  rfl

theorem print_enum_entries_ok_out (nesting : Nat) :
    ∀ (es : List EnumEntry) (s s' : EmSession),
      print_enum_entries nesting es s = (.ok (), s') →
      s'.out = s.out ++ (es.map (enum_entry_text nesting)).foldr (· ++ ·) "" := by
  intro es
  induction es with
  | nil =>
    intro s s' h
    injection h with h1 h2
    rw [← h2]
    simp
  | cons e rest ih =>
    intro s s' h
    unfold print_enum_entries at h
    rcases run_bind_ok h with ⟨_, s1, h1, h2⟩
    rw [ih s1 s' h2, print_enum_entry_ok_out nesting e s s1 h1,
      string_append_assoc]
    rfl

theorem ust_metadata_enum_statedump_ok_out (ename : String) (eid : Nat)
    (ct : IntegerType) (fname : String) (nesting : Nat) (s s' : EmSession)
    (h : ust_metadata_enum_statedump ename eid ct fname nesting s = (.ok (), s')) :
    ∃ reg, lookup_enum s ename eid = some reg ∧
      s'.out = s.out ++ String.mk (List.replicate nesting '\t') ++
        enum_header_text ct ++
        (reg.entries.map (enum_entry_text (nesting + 1))).foldr (· ++ ·) "" ++
        String.mk (List.replicate nesting '\t') ++
        ("\x7d _" ++ sanitize_ctf_identifier fname ++ ";\n") := by
  unfold ust_metadata_enum_statedump at h
  rcases hl : lookup_enum s ename eid with _ | reg
  · rw [hl] at h
    exact absurd h (by simp)
  · rw [hl] at h
    refine ⟨reg, rfl, ?_⟩
    rcases run_bind_ok h with ⟨_, s1, h1, h⟩
    rcases run_bind_ok h with ⟨_, s2, h2, h⟩
    rcases run_bind_ok h with ⟨_, s3, h3, h⟩
    rcases run_bind_ok h with ⟨_, s4, h4, h⟩
    rw [printf_ok_out h, print_tabs_ok_out nesting s3 s4 h4,
      print_enum_entries_ok_out (nesting + 1) reg.entries s2 s3 h3,
      printf_ok_out h2, print_tabs_ok_out nesting s s1 h1, enum_header_text]

set_option maxRecDepth 8192 in
/-- Concrete run: entries A(=0), B(=1...3), C(auto) from an empty session. -/
theorem print_enum_entries_ABC_run : print_enum_entries 0
    [⟨"A", ⟨0, false⟩, ⟨0, false⟩, false⟩,
     ⟨"B", ⟨1, false⟩, ⟨3, false⟩, false⟩,
     ⟨"C", ⟨0, false⟩, ⟨0, false⟩, true⟩] ⟨"", 64, false, []⟩ =
    (.ok (), ⟨"\"A\" = 0,\n\"B\" = 1 ... 3,\n\"C\",\n", 64, false, []⟩) := by
  have hA : print_enum_entry 0 ⟨"A", ⟨0, false⟩, ⟨0, false⟩, false⟩
      ⟨"", 64, false, []⟩ = (.ok (), ⟨"\"A\" = 0,\n", 64, false, []⟩) := by rfl
  have hB : print_enum_entry 0 ⟨"B", ⟨1, false⟩, ⟨3, false⟩, false⟩
      ⟨"\"A\" = 0,\n", 64, false, []⟩ =
      (.ok (), ⟨"\"A\" = 0,\n\"B\" = 1 ... 3,\n", 64, false, []⟩) := by rfl
  have hC : print_enum_entry 0 ⟨"C", ⟨0, false⟩, ⟨0, false⟩, true⟩
      ⟨"\"A\" = 0,\n\"B\" = 1 ... 3,\n", 64, false, []⟩ =
      (.ok (), ⟨"\"A\" = 0,\n\"B\" = 1 ... 3,\n\"C\",\n", 64, false, []⟩) := by rfl
  simp only [print_enum_entries, M_bind_apply, hA, hB, hC, M_pure_apply]

set_option maxRecDepth 8192 in
/-- A range mixing signedness: signed 18446744073709551615 (= 2^64-1)
renders as -1, unsigned 5 as 5. -/
theorem enum_entry_text_mixed_sign :
    enum_entry_text 0 ⟨"D", ⟨18446744073709551615, true⟩, ⟨5, false⟩, false⟩ =
    "\"D\" = -1 ... 5,\n" := by rfl

/-- C6: enum entries are emitted in registration order, each as its quoted
escaped label followed by `,` when auto-valued, `= value,` when start and
end agree in signedness and raw value, and `= start ... end,` otherwise,
each bound rendered signed (two's-complement reinterpretation of the u64)
or unsigned according to that bound's own signedness flag, entries mixing
signedness independently; the whole enum dump wraps the entries in the
`enum : integer { ... } {` container header and the closing `} _field;`
line; in particular entries ("A",0,0), ("B",1,3), ("C",auto) emit, in
order, `"A" = 0,` `"B" = 1 ... 3,` `"C",`, and a range with signed start
2^64-1 and unsigned end 5 renders as `"D" = -1 ... 5,`. -/
theorem C6_enum_entry_emission :
    (∀ (nesting : Nat) (e : EnumEntry) (s s' : EmSession),
        print_enum_entry nesting e s = (.ok (), s') →
        s'.out = s.out ++ enum_entry_text nesting e) ∧
    (∀ (nesting : Nat) (es : List EnumEntry) (s s' : EmSession),
        print_enum_entries nesting es s = (.ok (), s') →
        s'.out = s.out ++ (es.map (enum_entry_text nesting)).foldr (· ++ ·) "") ∧
    (∀ (ename : String) (eid : Nat) (ct : IntegerType) (fname : String)
        (nesting : Nat) (s s' : EmSession),
        ust_metadata_enum_statedump ename eid ct fname nesting s = (.ok (), s') →
        ∃ reg, lookup_enum s ename eid = some reg ∧
          s'.out = s.out ++ String.mk (List.replicate nesting '\t') ++
            enum_header_text ct ++
            (reg.entries.map (enum_entry_text (nesting + 1))).foldr (· ++ ·) "" ++
            String.mk (List.replicate nesting '\t') ++
            ("\x7d _" ++ sanitize_ctf_identifier fname ++ ";\n")) ∧
    (∀ (n : Nat) (e : EnumEntry), e.is_auto = true →
        enum_entry_text n e = String.mk (List.replicate n '\t') ++ "\"" ++
          escape_enum_label e.string ++ "\"" ++ ",\n") ∧
    (∀ (n : Nat) (e : EnumEntry), e.is_auto = false →
        e.start.signedness = e.end_.signedness → e.start.value = e.end_.value →
        enum_entry_text n e = String.mk (List.replicate n '\t') ++ "\"" ++
          escape_enum_label e.string ++ "\"" ++
          (" = " ++ enum_value_str e.start ++ ",\n")) ∧
    (∀ (n : Nat) (e : EnumEntry), e.is_auto = false →
        ¬(e.start.signedness = e.end_.signedness ∧ e.start.value = e.end_.value) →
        enum_entry_text n e = String.mk (List.replicate n '\t') ++ "\"" ++
          escape_enum_label e.string ++ "\"" ++
          (" = " ++ enum_value_str e.start ++
            (" ... " ++ enum_value_str e.end_ ++ ",\n"))) ∧
    (∀ v : Nat, enum_value_str ⟨v, true⟩ = toString (i64_of_u64 v) ∧
        enum_value_str ⟨v, false⟩ = toString v) ∧
    (print_enum_entries 0
        [⟨"A", ⟨0, false⟩, ⟨0, false⟩, false⟩,
         ⟨"B", ⟨1, false⟩, ⟨3, false⟩, false⟩,
         ⟨"C", ⟨0, false⟩, ⟨0, false⟩, true⟩] ⟨"", 64, false, []⟩ =
      (.ok (), ⟨"\"A\" = 0,\n\"B\" = 1 ... 3,\n\"C\",\n", 64, false, []⟩)) ∧
    (enum_entry_text 0 ⟨"D", ⟨18446744073709551615, true⟩, ⟨5, false⟩, false⟩ =
      "\"D\" = -1 ... 5,\n") := by
  refine ⟨print_enum_entry_ok_out, print_enum_entries_ok_out,
    ust_metadata_enum_statedump_ok_out, ?_, ?_, ?_, ?_,
    print_enum_entries_ABC_run, enum_entry_text_mixed_sign⟩
  · intro n e ha
    rw [enum_entry_text, if_pos ha]
  · intro n e ha hs hv
    rw [enum_entry_text, if_neg (by simp [ha]), if_pos ⟨hs, hv⟩]
  · intro n e ha hc
    rw [enum_entry_text, if_neg (by simp [ha]), if_neg hc]
  · intro v
    exact ⟨rfl, rfl⟩

set_option maxRecDepth 8192 in
theorem C6_enum_entry_emission_witness :
    ((⟨"\"A\" = 0,\n", 64, false, []⟩ : EmSession).out =
      (⟨"", 64, false, []⟩ : EmSession).out ++
        enum_entry_text 0 ⟨"A", ⟨0, false⟩, ⟨0, false⟩, false⟩) ∧
    ((⟨"\"A\" = 0,\n\"B\" = 1 ... 3,\n\"C\",\n", 64, false, []⟩ : EmSession).out =
      (⟨"", 64, false, []⟩ : EmSession).out ++
        (([⟨"A", ⟨0, false⟩, ⟨0, false⟩, false⟩,
           ⟨"B", ⟨1, false⟩, ⟨3, false⟩, false⟩,
           ⟨"C", ⟨0, false⟩, ⟨0, false⟩, true⟩] : List EnumEntry).map
          (enum_entry_text 0)).foldr (· ++ ·) "") ∧
    (∃ reg, lookup_enum
        (⟨"", 64, false, [⟨"col", 9, [⟨"A", ⟨0, false⟩, ⟨0, false⟩, false⟩]⟩]⟩ :
          EmSession) "col" 9 = some reg ∧
      (⟨"enum : integer \x7b size = 32; align = 8; signed = 0; encoding = none; base = 10; \x7d \x7b\n\t\"A\" = 0,\n\x7d _fld;\n",
          128, false, [⟨"col", 9, [⟨"A", ⟨0, false⟩, ⟨0, false⟩, false⟩]⟩]⟩ :
        EmSession).out =
      (⟨"", 64, false, [⟨"col", 9, [⟨"A", ⟨0, false⟩, ⟨0, false⟩, false⟩]⟩]⟩ :
          EmSession).out ++ String.mk (List.replicate 0 '\t') ++
        enum_header_text ⟨32, 8, 0, Encoding.none, 10, false⟩ ++
        (reg.entries.map (enum_entry_text (0 + 1))).foldr (· ++ ·) "" ++
        String.mk (List.replicate 0 '\t') ++
        ("\x7d _" ++ sanitize_ctf_identifier "fld" ++ ";\n")) ∧
    (enum_entry_text 0 ⟨"C", ⟨0, false⟩, ⟨0, false⟩, true⟩ =
      String.mk (List.replicate 0 '\t') ++ "\"" ++ escape_enum_label "C" ++
        "\"" ++ ",\n") ∧
    (enum_entry_text 0 ⟨"A", ⟨0, false⟩, ⟨0, false⟩, false⟩ =
      String.mk (List.replicate 0 '\t') ++ "\"" ++ escape_enum_label "A" ++
        "\"" ++ (" = " ++ enum_value_str ⟨0, false⟩ ++ ",\n")) ∧
    (enum_entry_text 0 ⟨"B", ⟨1, false⟩, ⟨3, false⟩, false⟩ =
      String.mk (List.replicate 0 '\t') ++ "\"" ++ escape_enum_label "B" ++
        "\"" ++ (" = " ++ enum_value_str ⟨1, false⟩ ++
          (" ... " ++ enum_value_str ⟨3, false⟩ ++ ",\n"))) := by
  refine ⟨C6_enum_entry_emission.1 0 ⟨"A", ⟨0, false⟩, ⟨0, false⟩, false⟩
      ⟨"", 64, false, []⟩ ⟨"\"A\" = 0,\n", 64, false, []⟩ (by rfl),
    C6_enum_entry_emission.2.1 0 _ ⟨"", 64, false, []⟩
      ⟨"\"A\" = 0,\n\"B\" = 1 ... 3,\n\"C\",\n", 64, false, []⟩
      print_enum_entries_ABC_run,
    C6_enum_entry_emission.2.2.1 "col" 9 ⟨32, 8, 0, Encoding.none, 10, false⟩
      "fld" 0
      ⟨"", 64, false, [⟨"col", 9, [⟨"A", ⟨0, false⟩, ⟨0, false⟩, false⟩]⟩]⟩
      ⟨"enum : integer \x7b size = 32; align = 8; signed = 0; encoding = none; base = 10; \x7d \x7b\n\t\"A\" = 0,\n\x7d _fld;\n",
        128, false, [⟨"col", 9, [⟨"A", ⟨0, false⟩, ⟨0, false⟩, false⟩]⟩]⟩
      (by rfl),
    C6_enum_entry_emission.2.2.2.1 0 ⟨"C", ⟨0, false⟩, ⟨0, false⟩, true⟩ rfl,
    C6_enum_entry_emission.2.2.2.2.1 0 ⟨"A", ⟨0, false⟩, ⟨0, false⟩, false⟩
      rfl rfl rfl,
    C6_enum_entry_emission.2.2.2.2.2.1 0 ⟨"B", ⟨1, false⟩, ⟨3, false⟩, false⟩
      rfl (by decide)⟩

/-! ### Claim C7: the walker's failure kinds

`_lttng_field_statedump` returns -EINVAL for descriptors of unsupported
shape and -EOVERFLOW when the cursor runs past the descriptor list; the
lemmas below settle each branch of the dispatch. -/

set_option maxHeartbeats 1000000 in
/-- Cursor already past the list: EOVERFLOW, nothing emitted. -/
theorem walker_overflow_at_end (fields : List lttng_ust_ctl_field)
    (iter nesting : Nat) (s : EmSession) (h : fields.length ≤ iter) :
    (_lttng_field_statedump fields iter nesting s).res = .error .eoverflow ∧
    (_lttng_field_statedump fields iter nesting s).sess = s ∧
    (_lttng_field_statedump fields iter nesting s).it = iter := by
  unfold _lttng_field_statedump
  rw [dif_neg (Nat.not_lt.mpr h)]
  exact ⟨rfl, rfl, rfl⟩

set_option maxHeartbeats 1000000 in
/-- A legacy struct declaring a nonzero field count: EINVAL. -/
theorem walker_einval_struct_legacy (fields : List lttng_ust_ctl_field)
    (iter nesting : Nat) (s : EmSession) (name : String) (n : Nat)
    (h : iter < fields.length)
    (hf : fields.get ⟨iter, h⟩ = ⟨name, .struct_legacy n⟩) (hn : n ≠ 0) :
    (_lttng_field_statedump fields iter nesting s).res = .error .einval ∧
    (_lttng_field_statedump fields iter nesting s).sess = s ∧
    (_lttng_field_statedump fields iter nesting s).it = iter := by
  unfold _lttng_field_statedump
  rw [dif_pos h]
  simp only [hf]
  rw [if_pos hn]
  exact ⟨rfl, rfl, rfl⟩

set_option maxHeartbeats 1000000 in
/-- A nestable struct declaring a nonzero field count: EINVAL. -/
theorem walker_einval_struct_nestable (fields : List lttng_ust_ctl_field)
    (iter nesting : Nat) (s : EmSession) (name : String) (n a : Nat)
    (h : iter < fields.length)
    (hf : fields.get ⟨iter, h⟩ = ⟨name, .struct_nestable n a⟩) (hn : n ≠ 0) :
    (_lttng_field_statedump fields iter nesting s).res = .error .einval ∧
    (_lttng_field_statedump fields iter nesting s).sess = s ∧
    (_lttng_field_statedump fields iter nesting s).it = iter := by
  unfold _lttng_field_statedump
  rw [dif_pos h]
  simp only [hf]
  rw [if_pos hn]
  exact ⟨rfl, rfl, rfl⟩

set_option maxHeartbeats 1000000 in
/-- A legacy array with a non-integer element type: EINVAL after the
tabs. -/
theorem walker_einval_array_legacy_other (fields : List lttng_ust_ctl_field)
    (iter nesting : Nat) (s s1 : EmSession) (name : String) (alen : Nat)
    (h : iter < fields.length)
    (hf : fields.get ⟨iter, h⟩ = ⟨name, .array_legacy .other alen⟩)
    (hpt : print_tabs nesting s = (.ok (), s1)) :
    (_lttng_field_statedump fields iter nesting s).res = .error .einval ∧
    (_lttng_field_statedump fields iter nesting s).sess = s1 ∧
    (_lttng_field_statedump fields iter nesting s).it = iter := by
  unfold _lttng_field_statedump
  rw [dif_pos h]
  simp only [hf]
  split
  · rename_i e s1' heq
    rw [hpt] at heq
    simp at heq
  · rename_i a s1' heq
    rw [hpt] at heq
    injection heq with h1 h2
    subst h2
    exact ⟨rfl, rfl, rfl⟩

set_option maxHeartbeats 1000000 in
/-- A legacy sequence with a non-integer element type: EINVAL after the
tabs. -/
theorem walker_einval_sequence_legacy_other
    (fields : List lttng_ust_ctl_field) (iter nesting : Nat)
    (s s1 : EmSession) (name : String) (lent : IntegerType)
    (h : iter < fields.length)
    (hf : fields.get ⟨iter, h⟩ = ⟨name, .sequence_legacy .other lent⟩)
    (hpt : print_tabs nesting s = (.ok (), s1)) :
    (_lttng_field_statedump fields iter nesting s).res = .error .einval ∧
    (_lttng_field_statedump fields iter nesting s).sess = s1 ∧
    (_lttng_field_statedump fields iter nesting s).it = iter := by
  unfold _lttng_field_statedump
  rw [dif_pos h]
  simp only [hf]
  split
  · rename_i e s1' heq
    rw [hpt] at heq
    simp at heq
  · rename_i a s1' heq
    rw [hpt] at heq
    injection heq with h1 h2
    subst h2
    exact ⟨rfl, rfl, rfl⟩

set_option maxHeartbeats 1000000 in
/-- A nestable array whose required element slot is missing: EOVERFLOW. -/
theorem walker_array_nestable_missing (fields : List lttng_ust_ctl_field)
    (iter nesting : Nat) (s : EmSession) (name : String) (alen aalign : Nat)
    (h : iter < fields.length)
    (hf : fields.get ⟨iter, h⟩ = ⟨name, .array_nestable alen aalign⟩)
    (hmiss : ¬(iter + 1 < fields.length)) :
    (_lttng_field_statedump fields iter nesting s).res = .error .eoverflow ∧
    (_lttng_field_statedump fields iter nesting s).sess = s ∧
    (_lttng_field_statedump fields iter nesting s).it = iter + 1 := by
  unfold _lttng_field_statedump
  rw [dif_pos h]
  simp only [hf]
  rw [dif_neg hmiss]
  exact ⟨rfl, rfl, rfl⟩

set_option maxHeartbeats 1000000 in
/-- A nestable array whose element slot is not an integer: EINVAL. -/
theorem walker_array_nestable_noninteger (fields : List lttng_ust_ctl_field)
    (iter nesting : Nat) (s : EmSession) (name : String) (alen aalign : Nat)
    (h : iter < fields.length)
    (hf : fields.get ⟨iter, h⟩ = ⟨name, .array_nestable alen aalign⟩)
    (hnext : iter + 1 < fields.length)
    (hnon : ∀ i, (fields.get ⟨iter + 1, hnext⟩).type ≠ .integer i) :
    (_lttng_field_statedump fields iter nesting s).res = .error .einval ∧
    (_lttng_field_statedump fields iter nesting s).sess = s ∧
    (_lttng_field_statedump fields iter nesting s).it = iter + 1 := by
  unfold _lttng_field_statedump
  rw [dif_pos h]
  simp only [hf]
  rw [dif_pos hnext]
  exact ⟨rfl, rfl, rfl⟩

set_option maxHeartbeats 1000000 in
/-- A nestable sequence whose required element slot is missing:
EOVERFLOW. -/
theorem walker_sequence_nestable_missing (fields : List lttng_ust_ctl_field)
    (iter nesting : Nat) (s : EmSession) (name lname : String) (salign : Nat)
    (h : iter < fields.length)
    (hf : fields.get ⟨iter, h⟩ = ⟨name, .sequence_nestable lname salign⟩)
    (hmiss : ¬(iter + 1 < fields.length)) :
    (_lttng_field_statedump fields iter nesting s).res = .error .eoverflow ∧
    (_lttng_field_statedump fields iter nesting s).sess = s ∧
    (_lttng_field_statedump fields iter nesting s).it = iter + 1 := by
  unfold _lttng_field_statedump
  rw [dif_pos h]
  simp only [hf]
  rw [dif_neg hmiss]
  exact ⟨rfl, rfl, rfl⟩

set_option maxHeartbeats 1000000 in
/-- A nestable sequence whose element slot is not an integer: EINVAL. -/
theorem walker_sequence_nestable_noninteger
    (fields : List lttng_ust_ctl_field) (iter nesting : Nat) (s : EmSession)
    (name lname : String) (salign : Nat) (h : iter < fields.length)
    (hf : fields.get ⟨iter, h⟩ = ⟨name, .sequence_nestable lname salign⟩)
    (hnext : iter + 1 < fields.length)
    (hnon : ∀ i, (fields.get ⟨iter + 1, hnext⟩).type ≠ .integer i) :
    (_lttng_field_statedump fields iter nesting s).res = .error .einval ∧
    (_lttng_field_statedump fields iter nesting s).sess = s ∧
    (_lttng_field_statedump fields iter nesting s).it = iter + 1 := by
  unfold _lttng_field_statedump
  rw [dif_pos h]
  simp only [hf]
  rw [dif_pos hnext]
  exact ⟨rfl, rfl, rfl⟩

set_option maxHeartbeats 1000000 in
/-- A nestable enum whose required container slot is missing: EOVERFLOW. -/
theorem walker_enum_nestable_missing (fields : List lttng_ust_ctl_field)
    (iter nesting : Nat) (s : EmSession) (name ename : String) (eid : Nat)
    (h : iter < fields.length)
    (hf : fields.get ⟨iter, h⟩ = ⟨name, .enum_nestable ename eid⟩)
    (hmiss : ¬(iter + 1 < fields.length)) :
    (_lttng_field_statedump fields iter nesting s).res = .error .eoverflow ∧
    (_lttng_field_statedump fields iter nesting s).sess = s ∧
    (_lttng_field_statedump fields iter nesting s).it = iter + 1 := by
  unfold _lttng_field_statedump
  rw [dif_pos h]
  simp only [hf]
  rw [dif_neg hmiss]
  exact ⟨rfl, rfl, rfl⟩

set_option maxHeartbeats 1000000 in
/-- A nestable enum whose container slot is not an integer: EINVAL. -/
theorem walker_enum_nestable_noninteger (fields : List lttng_ust_ctl_field)
    (iter nesting : Nat) (s : EmSession) (name ename : String) (eid : Nat)
    (h : iter < fields.length)
    (hf : fields.get ⟨iter, h⟩ = ⟨name, .enum_nestable ename eid⟩)
    (hnext : iter + 1 < fields.length)
    (hnon : ∀ i, (fields.get ⟨iter + 1, hnext⟩).type ≠ .integer i) :
    (_lttng_field_statedump fields iter nesting s).res = .error .einval ∧
    (_lttng_field_statedump fields iter nesting s).sess = s ∧
    (_lttng_field_statedump fields iter nesting s).it = iter + 1 := by
  unfold _lttng_field_statedump
  rw [dif_pos h]
  simp only [hf]
  rw [dif_pos hnext]
  exact ⟨rfl, rfl, rfl⟩

set_option maxHeartbeats 1000000 in
/-- An unknown type tag: EINVAL, nothing emitted. -/
theorem walker_einval_unknown (fields : List lttng_ust_ctl_field)
    (iter nesting : Nat) (s : EmSession) (name : String)
    (h : iter < fields.length)
    (hf : fields.get ⟨iter, h⟩ = ⟨name, .unknown⟩) :
    (_lttng_field_statedump fields iter nesting s).res = .error .einval ∧
    (_lttng_field_statedump fields iter nesting s).sess = s ∧
    (_lttng_field_statedump fields iter nesting s).it = iter := by
  unfold _lttng_field_statedump
  rw [dif_pos h]
  simp only [hf]
  exact ⟨by trivial, by trivial, by trivial⟩

/-- Exactly `n` successful walker steps at a fixed nesting, chaining the
cursor and the session through `_lttng_field_statedump`. -/
inductive WalkChain (fields : List lttng_ust_ctl_field) (nesting : Nat) :
    Nat → EmSession → Nat → EmSession → Nat → Prop where
  | nil (iter : Nat) (s : EmSession) : WalkChain fields nesting iter s iter s 0
  | step (iter : Nat) (s : EmSession) (it2 : Nat) (s2 : EmSession) (n : Nat)
      (hok : (_lttng_field_statedump fields iter nesting s).res = .ok ())
      (hrest : WalkChain fields nesting
        (_lttng_field_statedump fields iter nesting s).it
        (_lttng_field_statedump fields iter nesting s).sess it2 s2 n) :
      WalkChain fields nesting iter s it2 s2 (n + 1)

set_option maxHeartbeats 1000000 in
/-- A successful run of the variant choice loop is exactly `n` successful
walker steps at nesting + 1. -/
theorem choices_chain (fields : List lttng_ust_ctl_field) :
    ∀ (n iter nesting : Nat) (s : EmSession),
      (_lttng_variant_choices fields n iter nesting s).res = .ok () →
      WalkChain fields (nesting + 1) iter s
        (_lttng_variant_choices fields n iter nesting s).it
        (_lttng_variant_choices fields n iter nesting s).sess n := by
  intro n
  induction n with
  | zero =>
    intro iter nesting s _
    unfold _lttng_variant_choices
    exact WalkChain.nil iter s
  | succ n ih =>
    intro iter nesting s hok
    unfold _lttng_variant_choices at hok ⊢
    by_cases hle : iter < fields.length
    · rw [dif_pos hle] at hok ⊢
      split at hok
      · simp at hok
      · rename_i sess it adv hext heq
        simp only [heq]
        refine WalkChain.step iter s _ _ n ?_ ?_
        · rw [heq]
        · rw [heq]
          exact ih it nesting sess hok
    · rw [dif_neg hle] at hok
      simp at hok

set_option maxHeartbeats 1000000 in
/-- A successful `_lttng_variant_statedump` consumed the variant's own
descriptor slot once (the final cursor moved past `iter + 1`) and ran the
choice loop — exactly `nr_choices` walker steps — from cursor `iter + 1`
on the post-header session. -/
theorem variant_statedump_chain (fields : List lttng_ust_ctl_field)
    (vname : String) (n : Nat) (tag : String) (align iter nesting : Nat)
    (s : EmSession) (h : iter < fields.length) :
    (_lttng_variant_statedump fields vname n tag align iter nesting s h).res =
      .ok () →
    iter + 1 ≤
      (_lttng_variant_statedump fields vname n tag align iter nesting s h).it ∧
    ∃ s2, (_lttng_variant_choices fields n (iter + 1) nesting s2).res = .ok () ∧
      WalkChain fields (nesting + 1) (iter + 1) s2
        (_lttng_variant_statedump fields vname n tag align iter nesting s h).it
        (_lttng_variant_choices fields n (iter + 1) nesting s2).sess n := by
  unfold _lttng_variant_statedump
  simp only []
  split
  · intro hok
    simp at hok
  · split
    · intro hok
      simp at hok
    · rename_i a1 s1 heq1 a2 s2 heq2
      split
      · intro hok
        simp at hok
      · rename_i u hres
        intro _
        exact ⟨(_lttng_variant_choices fields n (iter + 1) nesting s2).adv hres,
          s2, hres, choices_chain fields n (iter + 1) nesting s2 hres⟩

set_option maxHeartbeats 1000000 in
/-- The walker's variant_legacy branch is the variant dump with zero
padding alignment. -/
theorem walker_variant_legacy_dispatch (fields : List lttng_ust_ctl_field)
    (iter nesting : Nat) (s : EmSession) (name : String) (nrc : Nat)
    (tag : String) (h : iter < fields.length)
    (hf : fields.get ⟨iter, h⟩ = ⟨name, .variant_legacy nrc tag⟩) :
    (_lttng_field_statedump fields iter nesting s).res =
      (_lttng_variant_statedump fields name nrc tag 0 iter nesting s h).res ∧
    (_lttng_field_statedump fields iter nesting s).sess =
      (_lttng_variant_statedump fields name nrc tag 0 iter nesting s h).sess ∧
    (_lttng_field_statedump fields iter nesting s).it =
      (_lttng_variant_statedump fields name nrc tag 0 iter nesting s h).it := by
  unfold _lttng_field_statedump
  rw [dif_pos h]
  simp only [hf]
  exact ⟨by trivial, by trivial, by trivial⟩

set_option maxHeartbeats 1000000 in
/-- The choice loop with at least one choice left and the cursor past the
list: EOVERFLOW, nothing consumed or emitted. -/
theorem variant_choices_overflow (fields : List lttng_ust_ctl_field)
    (n iter nesting : Nat) (s : EmSession) (hn : 0 < n)
    (hge : fields.length ≤ iter) :
    (_lttng_variant_choices fields n iter nesting s).res = .error .eoverflow ∧
    (_lttng_variant_choices fields n iter nesting s).sess = s ∧
    (_lttng_variant_choices fields n iter nesting s).it = iter := by
  cases n with
  | zero => exact absurd hn (by omega)
  | succ n =>
    unfold _lttng_variant_choices
    rw [dif_neg (Nat.not_lt.mpr hge)]
    exact ⟨rfl, rfl, rfl⟩

set_option maxHeartbeats 1000000 in
/-- An unpadded variant whose choices do not fit in the descriptor list
(at least one choice, own slot taken by the variant itself): once the
header prints, the dump fails with EOVERFLOW at cursor `iter + 1`. -/
theorem variant_statedump_overflow (fields : List lttng_ust_ctl_field)
    (vname : String) (n : Nat) (tag : String) (iter nesting : Nat)
    (s s2 : EmSession) (h : iter < fields.length) (hn : 0 < n)
    (hlast : fields.length ≤ iter + 1)
    (hhdr : (do
        print_tabs nesting
        lttng_metadata_printf ("variant <_" ++ sanitize_ctf_identifier tag ++
          "> \x7b\n")) s = (.ok (), s2)) :
    (_lttng_variant_statedump fields vname n tag 0 iter nesting s h).res =
      .error .eoverflow ∧
    (_lttng_variant_statedump fields vname n tag 0 iter nesting s h).sess = s2 ∧
    (_lttng_variant_statedump fields vname n tag 0 iter nesting s h).it =
      iter + 1 := by
  have hv := variant_choices_overflow fields n (iter + 1) nesting s2 hn hlast
  unfold _lttng_variant_statedump
  simp only []
  split
  · rename_i e s1' heq
    simp only [ne_eq, not_true_eq_false, if_false, M_pure_apply] at heq
    simp at heq
  · rename_i a s1' heq
    simp only [ne_eq, not_true_eq_false, if_false, M_pure_apply] at heq
    injection heq with h1 h2
    subst h2
    split
    · rename_i e s2' heq2
      rw [hhdr] at heq2
      simp at heq2
    · rename_i a2 s2' heq2
      rw [hhdr] at heq2
      injection heq2 with h3 h4
      subst h4
      split
      · rename_i e hres
        rw [hv.1] at hres
        injection hres with h5
        subst h5
        exact ⟨rfl, hv.2.1, hv.2.2⟩
      · rename_i u hres
        rw [hv.1] at hres
        cases hres

set_option maxHeartbeats 1000000 in
/-- An unpadded variant with successful header prints, choice loop and
closing prints returns 0 with the choice loop's final cursor. -/
theorem variant_statedump_ok_char (fields : List lttng_ust_ctl_field)
    (vname : String) (n : Nat) (tag : String) (iter nesting : Nat)
    (s s2 s3 : EmSession) (h : iter < fields.length)
    (hhdr : (do
        print_tabs nesting
        lttng_metadata_printf ("variant <_" ++ sanitize_ctf_identifier tag ++
          "> \x7b\n")) s = (.ok (), s2))
    (hch : (_lttng_variant_choices fields n (iter + 1) nesting s2).res = .ok ())
    (hcl : (do
        print_tabs nesting
        lttng_metadata_printf ("\x7d _" ++ sanitize_ctf_identifier vname ++
          ";\n"))
        (_lttng_variant_choices fields n (iter + 1) nesting s2).sess =
      (.ok (), s3)) :
    (_lttng_variant_statedump fields vname n tag 0 iter nesting s h).res =
      .ok () ∧
    (_lttng_variant_statedump fields vname n tag 0 iter nesting s h).sess =
      s3 ∧
    (_lttng_variant_statedump fields vname n tag 0 iter nesting s h).it =
      (_lttng_variant_choices fields n (iter + 1) nesting s2).it := by
  unfold _lttng_variant_statedump
  simp only []
  split
  · rename_i e s1' heq
    simp only [ne_eq, not_true_eq_false, if_false, M_pure_apply] at heq
    simp at heq
  · rename_i a s1' heq
    simp only [ne_eq, not_true_eq_false, if_false, M_pure_apply] at heq
    injection heq with h1 h2
    subst h2
    split
    · rename_i e s2' heq2
      rw [hhdr] at heq2
      simp at heq2
    · rename_i a2 s2' heq2
      rw [hhdr] at heq2
      injection heq2 with h3 h4
      subst h4
      split
      · rename_i e hres
        exact absurd (hch.symm.trans hres) (by simp)
      · rename_i u hres
        exact ⟨congrArg Prod.fst hcl, congrArg Prod.snd hcl, rfl⟩

set_option maxRecDepth 8192 in
set_option maxHeartbeats 1000000 in
/-- Concrete successful variant dump with zero choices: the choice loop
runs zero walker steps and the dump returns 0. -/
theorem variant_run0_ok :
    (_lttng_variant_statedump [⟨"v", FieldType.variant_legacy 0 "tag"⟩]
        "v" 0 "tag" 0 0 0 ⟨"", 64, false, []⟩ Nat.zero_lt_one).res = .ok () := by
  have hch : (_lttng_variant_choices [⟨"v", FieldType.variant_legacy 0 "tag"⟩]
      0 1 0 ⟨"variant <_tag> \x7b\n", 64, false, []⟩).res = .ok () := by
    unfold _lttng_variant_choices
    rfl
  have hsess : (_lttng_variant_choices [⟨"v", FieldType.variant_legacy 0 "tag"⟩]
      0 1 0 ⟨"variant <_tag> \x7b\n", 64, false, []⟩).sess =
      ⟨"variant <_tag> \x7b\n", 64, false, []⟩ := by
    unfold _lttng_variant_choices
    rfl
  exact (variant_statedump_ok_char [⟨"v", FieldType.variant_legacy 0 "tag"⟩]
    "v" 0 "tag" 0 0 ⟨"", 64, false, []⟩ ⟨"variant <_tag> \x7b\n", 64, false, []⟩
    ⟨"variant <_tag> \x7b\n\x7d _v;\n", 64, false, []⟩ Nat.zero_lt_one
    (by rfl) hch (by rw [hsess]; rfl)).1

set_option maxRecDepth 8192 in
set_option maxHeartbeats 1000000 in
/-- Concrete: a variant declaring 3 choices with only its own descriptor
left fails with EOVERFLOW after emitting the variant header. -/
theorem variant_overflow_concrete :
    (_lttng_field_statedump [⟨"v", .variant_legacy 3 "tag"⟩] 0 0
        ⟨"", 64, false, []⟩).res = .error .eoverflow ∧
    (_lttng_field_statedump [⟨"v", .variant_legacy 3 "tag"⟩] 0 0
        ⟨"", 64, false, []⟩).sess = ⟨"variant <_tag> \x7b\n", 64, false, []⟩ ∧
    (_lttng_field_statedump [⟨"v", .variant_legacy 3 "tag"⟩] 0 0
        ⟨"", 64, false, []⟩).it = 1 := by
  have hd := walker_variant_legacy_dispatch [⟨"v", .variant_legacy 3 "tag"⟩]
    0 0 ⟨"", 64, false, []⟩ "v" 3 "tag" (by decide) rfl
  have hov := variant_statedump_overflow [⟨"v", .variant_legacy 3 "tag"⟩]
    "v" 3 "tag" 0 0 ⟨"", 64, false, []⟩ ⟨"variant <_tag> \x7b\n", 64, false, []⟩
    (by decide) (by decide) (by decide) (by rfl)
  exact ⟨hd.1.trans hov.1, hd.2.1.trans hov.2.1, hd.2.2.trans hov.2.2⟩

/-- C7: the field walker distinguishes its two failure kinds.  Unsupported
descriptor shapes — a struct (legacy or nestable) declaring a nonzero
field count, a legacy array or sequence with a non-integer element, a
nestable array, sequence or enum whose element/container slot is not an
integer, or an unknown type tag — fail with EINVAL (InvalidFormat),
whereas exhausting the descriptor list — the cursor at or past the list
length on entry, or a nestable array/sequence/enum missing its required
next slot — fails with the distinct EOVERFLOW kind; a successful variant
consumes the variant's own slot once and then recurses into the walker
exactly choice-count times from cursor iter + 1; in particular a variant
declaring 3 choices with only 1 remaining field descriptor fails with
EOVERFLOW. -/
theorem C7_walker_failure_kinds :
    (∀ (fields : List lttng_ust_ctl_field) (iter nesting : Nat)
        (s : EmSession), fields.length ≤ iter →
      (_lttng_field_statedump fields iter nesting s).res = .error .eoverflow ∧
      (_lttng_field_statedump fields iter nesting s).sess = s ∧
      (_lttng_field_statedump fields iter nesting s).it = iter) ∧
    (∀ (fields : List lttng_ust_ctl_field) (iter nesting : Nat)
        (s : EmSession) (name : String) (n : Nat) (h : iter < fields.length),
      fields.get ⟨iter, h⟩ = ⟨name, .struct_legacy n⟩ → n ≠ 0 →
      (_lttng_field_statedump fields iter nesting s).res = .error .einval ∧
      (_lttng_field_statedump fields iter nesting s).sess = s ∧
      (_lttng_field_statedump fields iter nesting s).it = iter) ∧
    (∀ (fields : List lttng_ust_ctl_field) (iter nesting : Nat)
        (s : EmSession) (name : String) (n a : Nat) (h : iter < fields.length),
      fields.get ⟨iter, h⟩ = ⟨name, .struct_nestable n a⟩ → n ≠ 0 →
      (_lttng_field_statedump fields iter nesting s).res = .error .einval ∧
      (_lttng_field_statedump fields iter nesting s).sess = s ∧
      (_lttng_field_statedump fields iter nesting s).it = iter) ∧
    (∀ (fields : List lttng_ust_ctl_field) (iter nesting : Nat)
        (s s1 : EmSession) (name : String) (alen : Nat)
        (h : iter < fields.length),
      fields.get ⟨iter, h⟩ = ⟨name, .array_legacy .other alen⟩ →
      print_tabs nesting s = (.ok (), s1) →
      (_lttng_field_statedump fields iter nesting s).res = .error .einval ∧
      (_lttng_field_statedump fields iter nesting s).sess = s1 ∧
      (_lttng_field_statedump fields iter nesting s).it = iter) ∧
    (∀ (fields : List lttng_ust_ctl_field) (iter nesting : Nat)
        (s s1 : EmSession) (name : String) (lent : IntegerType)
        (h : iter < fields.length),
      fields.get ⟨iter, h⟩ = ⟨name, .sequence_legacy .other lent⟩ →
      print_tabs nesting s = (.ok (), s1) →
      (_lttng_field_statedump fields iter nesting s).res = .error .einval ∧
      (_lttng_field_statedump fields iter nesting s).sess = s1 ∧
      (_lttng_field_statedump fields iter nesting s).it = iter) ∧
    (∀ (fields : List lttng_ust_ctl_field) (iter nesting : Nat)
        (s : EmSession) (name : String) (alen aalign : Nat)
        (h : iter < fields.length),
      fields.get ⟨iter, h⟩ = ⟨name, .array_nestable alen aalign⟩ →
      ¬(iter + 1 < fields.length) →
      (_lttng_field_statedump fields iter nesting s).res = .error .eoverflow ∧
      (_lttng_field_statedump fields iter nesting s).sess = s ∧
      (_lttng_field_statedump fields iter nesting s).it = iter + 1) ∧
    (∀ (fields : List lttng_ust_ctl_field) (iter nesting : Nat)
        (s : EmSession) (name : String) (alen aalign : Nat)
        (h : iter < fields.length),
      fields.get ⟨iter, h⟩ = ⟨name, .array_nestable alen aalign⟩ →
      ∀ hnext : iter + 1 < fields.length,
      (∀ i, (fields.get ⟨iter + 1, hnext⟩).type ≠ .integer i) →
      (_lttng_field_statedump fields iter nesting s).res = .error .einval ∧
      (_lttng_field_statedump fields iter nesting s).sess = s ∧
      (_lttng_field_statedump fields iter nesting s).it = iter + 1) ∧
    (∀ (fields : List lttng_ust_ctl_field) (iter nesting : Nat)
        (s : EmSession) (name lname : String) (salign : Nat)
        (h : iter < fields.length),
      fields.get ⟨iter, h⟩ = ⟨name, .sequence_nestable lname salign⟩ →
      ¬(iter + 1 < fields.length) →
      (_lttng_field_statedump fields iter nesting s).res = .error .eoverflow ∧
      (_lttng_field_statedump fields iter nesting s).sess = s ∧
      (_lttng_field_statedump fields iter nesting s).it = iter + 1) ∧
    (∀ (fields : List lttng_ust_ctl_field) (iter nesting : Nat)
        (s : EmSession) (name lname : String) (salign : Nat)
        (h : iter < fields.length),
      fields.get ⟨iter, h⟩ = ⟨name, .sequence_nestable lname salign⟩ →
      ∀ hnext : iter + 1 < fields.length,
      (∀ i, (fields.get ⟨iter + 1, hnext⟩).type ≠ .integer i) →
      (_lttng_field_statedump fields iter nesting s).res = .error .einval ∧
      (_lttng_field_statedump fields iter nesting s).sess = s ∧
      (_lttng_field_statedump fields iter nesting s).it = iter + 1) ∧
    (∀ (fields : List lttng_ust_ctl_field) (iter nesting : Nat)
        (s : EmSession) (name ename : String) (eid : Nat)
        (h : iter < fields.length),
      fields.get ⟨iter, h⟩ = ⟨name, .enum_nestable ename eid⟩ →
      ¬(iter + 1 < fields.length) →
      (_lttng_field_statedump fields iter nesting s).res = .error .eoverflow ∧
      (_lttng_field_statedump fields iter nesting s).sess = s ∧
      (_lttng_field_statedump fields iter nesting s).it = iter + 1) ∧
    (∀ (fields : List lttng_ust_ctl_field) (iter nesting : Nat)
        (s : EmSession) (name ename : String) (eid : Nat)
        (h : iter < fields.length),
      fields.get ⟨iter, h⟩ = ⟨name, .enum_nestable ename eid⟩ →
      ∀ hnext : iter + 1 < fields.length,
      (∀ i, (fields.get ⟨iter + 1, hnext⟩).type ≠ .integer i) →
      (_lttng_field_statedump fields iter nesting s).res = .error .einval ∧
      (_lttng_field_statedump fields iter nesting s).sess = s ∧
      (_lttng_field_statedump fields iter nesting s).it = iter + 1) ∧
    (∀ (fields : List lttng_ust_ctl_field) (iter nesting : Nat)
        (s : EmSession) (name : String) (h : iter < fields.length),
      fields.get ⟨iter, h⟩ = ⟨name, .unknown⟩ →
      (_lttng_field_statedump fields iter nesting s).res = .error .einval ∧
      (_lttng_field_statedump fields iter nesting s).sess = s ∧
      (_lttng_field_statedump fields iter nesting s).it = iter) ∧
    (∀ (fields : List lttng_ust_ctl_field) (vname : String) (n : Nat)
        (tag : String) (align iter nesting : Nat) (s : EmSession)
        (h : iter < fields.length),
      (_lttng_variant_statedump fields vname n tag align iter nesting s h).res =
        .ok () →
      iter + 1 ≤
        (_lttng_variant_statedump fields vname n tag align iter nesting s h).it ∧
      ∃ s2, (_lttng_variant_choices fields n (iter + 1) nesting s2).res =
          .ok () ∧
        WalkChain fields (nesting + 1) (iter + 1) s2
          (_lttng_variant_statedump fields vname n tag align iter nesting s h).it
          (_lttng_variant_choices fields n (iter + 1) nesting s2).sess n) ∧
    ((_lttng_field_statedump [⟨"v", .variant_legacy 3 "tag"⟩] 0 0
        ⟨"", 64, false, []⟩).res = .error .eoverflow ∧
      (_lttng_field_statedump [⟨"v", .variant_legacy 3 "tag"⟩] 0 0
        ⟨"", 64, false, []⟩).sess = ⟨"variant <_tag> \x7b\n", 64, false, []⟩ ∧
      (_lttng_field_statedump [⟨"v", .variant_legacy 3 "tag"⟩] 0 0
        ⟨"", 64, false, []⟩).it = 1) :=
  ⟨fun fields iter nesting s h =>
      walker_overflow_at_end fields iter nesting s h,
    fun fields iter nesting s name n h hf hn =>
      walker_einval_struct_legacy fields iter nesting s name n h hf hn,
    fun fields iter nesting s name n a h hf hn =>
      walker_einval_struct_nestable fields iter nesting s name n a h hf hn,
    fun fields iter nesting s s1 name alen h hf hpt =>
      walker_einval_array_legacy_other fields iter nesting s s1 name alen
        h hf hpt,
    fun fields iter nesting s s1 name lent h hf hpt =>
      walker_einval_sequence_legacy_other fields iter nesting s s1 name lent
        h hf hpt,
    fun fields iter nesting s name alen aalign h hf hmiss =>
      walker_array_nestable_missing fields iter nesting s name alen aalign
        h hf hmiss,
    fun fields iter nesting s name alen aalign h hf hnext hnon =>
      walker_array_nestable_noninteger fields iter nesting s name alen aalign
        h hf hnext hnon,
    fun fields iter nesting s name lname salign h hf hmiss =>
      walker_sequence_nestable_missing fields iter nesting s name lname salign
        h hf hmiss,
    fun fields iter nesting s name lname salign h hf hnext hnon =>
      walker_sequence_nestable_noninteger fields iter nesting s name lname
        salign h hf hnext hnon,
    fun fields iter nesting s name ename eid h hf hmiss =>
      walker_enum_nestable_missing fields iter nesting s name ename eid
        h hf hmiss,
    fun fields iter nesting s name ename eid h hf hnext hnon =>
      walker_enum_nestable_noninteger fields iter nesting s name ename eid
        h hf hnext hnon,
    fun fields iter nesting s name h hf =>
      walker_einval_unknown fields iter nesting s name h hf,
    fun fields vname n tag align iter nesting s h hok =>
      variant_statedump_chain fields vname n tag align iter nesting s h hok,
    variant_overflow_concrete⟩

set_option maxHeartbeats 1000000 in
theorem C7_walker_failure_kinds_witness :
    ((_lttng_field_statedump [] 0 0 ⟨"", 64, false, []⟩).res =
        .error .eoverflow ∧
      (_lttng_field_statedump [] 0 0 ⟨"", 64, false, []⟩).sess =
        ⟨"", 64, false, []⟩ ∧
      (_lttng_field_statedump [] 0 0 ⟨"", 64, false, []⟩).it = 0) ∧
    ((_lttng_field_statedump [⟨"f", .struct_legacy 1⟩] 0 0
        ⟨"", 64, false, []⟩).res = .error .einval ∧
      (_lttng_field_statedump [⟨"f", .struct_legacy 1⟩] 0 0
        ⟨"", 64, false, []⟩).sess = ⟨"", 64, false, []⟩ ∧
      (_lttng_field_statedump [⟨"f", .struct_legacy 1⟩] 0 0
        ⟨"", 64, false, []⟩).it = 0) ∧
    ((_lttng_field_statedump [⟨"f", .struct_nestable 1 0⟩] 0 0
        ⟨"", 64, false, []⟩).res = .error .einval ∧
      (_lttng_field_statedump [⟨"f", .struct_nestable 1 0⟩] 0 0
        ⟨"", 64, false, []⟩).sess = ⟨"", 64, false, []⟩ ∧
      (_lttng_field_statedump [⟨"f", .struct_nestable 1 0⟩] 0 0
        ⟨"", 64, false, []⟩).it = 0) ∧
    ((_lttng_field_statedump [⟨"f", .array_legacy .other 2⟩] 0 0
        ⟨"", 64, false, []⟩).res = .error .einval ∧
      (_lttng_field_statedump [⟨"f", .array_legacy .other 2⟩] 0 0
        ⟨"", 64, false, []⟩).sess = ⟨"", 64, false, []⟩ ∧
      (_lttng_field_statedump [⟨"f", .array_legacy .other 2⟩] 0 0
        ⟨"", 64, false, []⟩).it = 0) ∧
    ((_lttng_field_statedump
        [⟨"f", .sequence_legacy .other ⟨32, 8, 0, Encoding.none, 10, false⟩⟩]
        0 0 ⟨"", 64, false, []⟩).res = .error .einval ∧
      (_lttng_field_statedump
        [⟨"f", .sequence_legacy .other ⟨32, 8, 0, Encoding.none, 10, false⟩⟩]
        0 0 ⟨"", 64, false, []⟩).sess = ⟨"", 64, false, []⟩ ∧
      (_lttng_field_statedump
        [⟨"f", .sequence_legacy .other ⟨32, 8, 0, Encoding.none, 10, false⟩⟩]
        0 0 ⟨"", 64, false, []⟩).it = 0) ∧
    ((_lttng_field_statedump [⟨"a", .array_nestable 4 0⟩] 0 0
        ⟨"", 64, false, []⟩).res = .error .eoverflow ∧
      (_lttng_field_statedump [⟨"a", .array_nestable 4 0⟩] 0 0
        ⟨"", 64, false, []⟩).sess = ⟨"", 64, false, []⟩ ∧
      (_lttng_field_statedump [⟨"a", .array_nestable 4 0⟩] 0 0
        ⟨"", 64, false, []⟩).it = 0 + 1) ∧
    ((_lttng_field_statedump
        [⟨"a", .array_nestable 4 0⟩, ⟨"x", .string Encoding.none⟩] 0 0
        ⟨"", 64, false, []⟩).res = .error .einval ∧
      (_lttng_field_statedump
        [⟨"a", .array_nestable 4 0⟩, ⟨"x", .string Encoding.none⟩] 0 0
        ⟨"", 64, false, []⟩).sess = ⟨"", 64, false, []⟩ ∧
      (_lttng_field_statedump
        [⟨"a", .array_nestable 4 0⟩, ⟨"x", .string Encoding.none⟩] 0 0
        ⟨"", 64, false, []⟩).it = 0 + 1) ∧
    ((_lttng_field_statedump [⟨"sq", .sequence_nestable "len" 0⟩] 0 0
        ⟨"", 64, false, []⟩).res = .error .eoverflow ∧
      (_lttng_field_statedump [⟨"sq", .sequence_nestable "len" 0⟩] 0 0
        ⟨"", 64, false, []⟩).sess = ⟨"", 64, false, []⟩ ∧
      (_lttng_field_statedump [⟨"sq", .sequence_nestable "len" 0⟩] 0 0
        ⟨"", 64, false, []⟩).it = 0 + 1) ∧
    ((_lttng_field_statedump
        [⟨"sq", .sequence_nestable "len" 0⟩, ⟨"x", .string Encoding.none⟩] 0 0
        ⟨"", 64, false, []⟩).res = .error .einval ∧
      (_lttng_field_statedump
        [⟨"sq", .sequence_nestable "len" 0⟩, ⟨"x", .string Encoding.none⟩] 0 0
        ⟨"", 64, false, []⟩).sess = ⟨"", 64, false, []⟩ ∧
      (_lttng_field_statedump
        [⟨"sq", .sequence_nestable "len" 0⟩, ⟨"x", .string Encoding.none⟩] 0 0
        ⟨"", 64, false, []⟩).it = 0 + 1) ∧
    ((_lttng_field_statedump [⟨"e", .enum_nestable "col" 9⟩] 0 0
        ⟨"", 64, false, []⟩).res = .error .eoverflow ∧
      (_lttng_field_statedump [⟨"e", .enum_nestable "col" 9⟩] 0 0
        ⟨"", 64, false, []⟩).sess = ⟨"", 64, false, []⟩ ∧
      (_lttng_field_statedump [⟨"e", .enum_nestable "col" 9⟩] 0 0
        ⟨"", 64, false, []⟩).it = 0 + 1) ∧
    ((_lttng_field_statedump
        [⟨"e", .enum_nestable "col" 9⟩, ⟨"x", .string Encoding.none⟩] 0 0
        ⟨"", 64, false, []⟩).res = .error .einval ∧
      (_lttng_field_statedump
        [⟨"e", .enum_nestable "col" 9⟩, ⟨"x", .string Encoding.none⟩] 0 0
        ⟨"", 64, false, []⟩).sess = ⟨"", 64, false, []⟩ ∧
      (_lttng_field_statedump
        [⟨"e", .enum_nestable "col" 9⟩, ⟨"x", .string Encoding.none⟩] 0 0
        ⟨"", 64, false, []⟩).it = 0 + 1) ∧
    ((_lttng_field_statedump [⟨"f", FieldType.unknown⟩] 0 0
        ⟨"", 64, false, []⟩).res = .error .einval ∧
      (_lttng_field_statedump [⟨"f", FieldType.unknown⟩] 0 0
        ⟨"", 64, false, []⟩).sess = ⟨"", 64, false, []⟩ ∧
      (_lttng_field_statedump [⟨"f", FieldType.unknown⟩] 0 0
        ⟨"", 64, false, []⟩).it = 0) ∧
    (0 + 1 ≤
      (_lttng_variant_statedump [⟨"v", FieldType.variant_legacy 0 "tag"⟩]
        "v" 0 "tag" 0 0 0 ⟨"", 64, false, []⟩ Nat.zero_lt_one).it ∧
    ∃ s2, (_lttng_variant_choices [⟨"v", FieldType.variant_legacy 0 "tag"⟩]
        0 (0 + 1) 0 s2).res = .ok () ∧
      WalkChain [⟨"v", FieldType.variant_legacy 0 "tag"⟩] (0 + 1) (0 + 1) s2
        (_lttng_variant_statedump [⟨"v", FieldType.variant_legacy 0 "tag"⟩]
          "v" 0 "tag" 0 0 0 ⟨"", 64, false, []⟩ Nat.zero_lt_one).it
        (_lttng_variant_choices [⟨"v", FieldType.variant_legacy 0 "tag"⟩]
          0 (0 + 1) 0 s2).sess 0) := by
  refine ⟨?_, ?_, ?_, ?_, ?_, ?_, ?_, ?_, ?_, ?_, ?_, ?_, ?_⟩
  · exact C7_walker_failure_kinds.1 [] 0 0 ⟨"", 64, false, []⟩ (by decide)
  · exact C7_walker_failure_kinds.2.1 [⟨"f", .struct_legacy 1⟩] 0 0
      ⟨"", 64, false, []⟩ "f" 1 (by decide) rfl (by decide)
  · exact C7_walker_failure_kinds.2.2.1 [⟨"f", .struct_nestable 1 0⟩] 0 0
      ⟨"", 64, false, []⟩ "f" 1 0 (by decide) rfl (by decide)
  · exact C7_walker_failure_kinds.2.2.2.1 [⟨"f", .array_legacy .other 2⟩] 0 0
      ⟨"", 64, false, []⟩ ⟨"", 64, false, []⟩ "f" 2 (by decide) rfl rfl
  · exact C7_walker_failure_kinds.2.2.2.2.1
      [⟨"f", .sequence_legacy .other ⟨32, 8, 0, Encoding.none, 10, false⟩⟩]
      0 0 ⟨"", 64, false, []⟩ ⟨"", 64, false, []⟩ "f"
      ⟨32, 8, 0, Encoding.none, 10, false⟩ (by decide) rfl rfl
  · exact C7_walker_failure_kinds.2.2.2.2.2.1 [⟨"a", .array_nestable 4 0⟩]
      0 0 ⟨"", 64, false, []⟩ "a" 4 0 (by decide) rfl (by decide)
  · exact C7_walker_failure_kinds.2.2.2.2.2.2.1
      [⟨"a", .array_nestable 4 0⟩, ⟨"x", .string Encoding.none⟩] 0 0
      ⟨"", 64, false, []⟩ "a" 4 0 (by decide) rfl (by decide)
      (fun i h => FieldType.noConfusion h)
  · exact C7_walker_failure_kinds.2.2.2.2.2.2.2.1
      [⟨"sq", .sequence_nestable "len" 0⟩] 0 0 ⟨"", 64, false, []⟩
      "sq" "len" 0 (by decide) rfl (by decide)
  · exact C7_walker_failure_kinds.2.2.2.2.2.2.2.2.1
      [⟨"sq", .sequence_nestable "len" 0⟩, ⟨"x", .string Encoding.none⟩] 0 0
      ⟨"", 64, false, []⟩ "sq" "len" 0 (by decide) rfl (by decide)
      (fun i h => FieldType.noConfusion h)
  · exact C7_walker_failure_kinds.2.2.2.2.2.2.2.2.2.1
      [⟨"e", .enum_nestable "col" 9⟩] 0 0 ⟨"", 64, false, []⟩
      "e" "col" 9 (by decide) rfl (by decide)
  · exact C7_walker_failure_kinds.2.2.2.2.2.2.2.2.2.2.1
      [⟨"e", .enum_nestable "col" 9⟩, ⟨"x", .string Encoding.none⟩] 0 0
      ⟨"", 64, false, []⟩ "e" "col" 9 (by decide) rfl (by decide)
      (fun i h => FieldType.noConfusion h)
  · exact C7_walker_failure_kinds.2.2.2.2.2.2.2.2.2.2.2.1
      [⟨"f", FieldType.unknown⟩] 0 0 ⟨"", 64, false, []⟩ "f" (by decide) rfl
  · exact C7_walker_failure_kinds.2.2.2.2.2.2.2.2.2.2.2.2.1
      [⟨"v", FieldType.variant_legacy 0 "tag"⟩] "v" 0 "tag" 0 0 0
      ⟨"", 64, false, []⟩ Nat.zero_lt_one variant_run0_ok
